import Mathlib

/-!
Verification development for the Analytical-Company SQL agent
(`src/ai/sql_agent.py`, `src/ai/orchestrator.py`, `src/utils/database_query.py`).

The Python code is shallowly embedded: strings are `List Char` / `String`,
the regex substitutions the agent performs are modelled by dedicated
character-level scanners that reproduce the semantics of the concrete
patterns appearing in the source (word boundaries, case-insensitive literal
alternatives, non-overlapping left-to-right substitution), the SQLite layer
is a `RawEngine` oracle, and the LLM collaborators are oracle parameters,
as the spec treats them ("external text-completion collaborator").

Character model: the embedding is exact for the Latin-1 repertoire that the
source's keyword tables and SQL use.  `ß`/`ÿ` upper-casing and word
characters above U+00FF are approximated (documented at the definitions);
no string handled by the theorems below contains such characters.
-/

namespace AnalyticalCompany

/-! ### Python character primitives -/

/-- Python `\w`-membership restricted to the explicit ASCII class
`[A-Za-z0-9_]` that `_replace_identifiers` spells out in its pattern. -/
def asciiWordChar (c : Char) : Bool :=
  let n := c.toNat
  (65 ≤ n && n ≤ 90) || (97 ≤ n && n ≤ 122) || (48 ≤ n && n ≤ 57) || n == 95

/-- Python's Unicode-aware `\b`/`\w` word characters, restricted to the
Latin-1 range (all identifiers and keywords in the source are Latin-1;
word characters above U+00FF are not modelled). -/
def pyWordChar (c : Char) : Bool :=
  let n := c.toNat
  asciiWordChar c || n == 0xAA || n == 0xB5 || n == 0xBA ||
    (0xC0 ≤ n && n ≤ 0xFF && n != 0xD7 && n != 0xF7)

/-- Python whitespace (`str.strip`, regex `\s`) over Latin-1. -/
def pyWhitespaceChar (c : Char) : Bool :=
  let n := c.toNat
  n == 32 || (9 ≤ n && n ≤ 13) || (28 ≤ n && n ≤ 31) || n == 133 || n == 160

/-- Python `str.lower` on Latin-1 (`A`-`Z` and `À`-`Þ` except `×` map down). -/
def pyLowerChar (c : Char) : Char :=
  let n := c.toNat
  if (65 ≤ n && n ≤ 90) || (0xC0 ≤ n && n ≤ 0xDE && n != 0xD7) then
    Char.ofNat (n + 32)
  else c

/-- Python `str.upper` on Latin-1 (`ß` and `ÿ`, whose Python upper-case
leaves Latin-1, are approximated by themselves; they never occur in the
prefixes and keywords this function is compared against). -/
def pyUpperChar (c : Char) : Char :=
  let n := c.toNat
  if (97 ≤ n && n ≤ 122) || (0xE0 ≤ n && n ≤ 0xFE && n != 0xF7) then
    Char.ofNat (n - 32)
  else c

/-! ### List-of-characters string operations -/

def lowerL (s : List Char) : List Char := s.map pyLowerChar

def upperL (s : List Char) : List Char := s.map pyUpperChar

def stripLeftL (s : List Char) : List Char := s.dropWhile pyWhitespaceChar

def stripL (s : List Char) : List Char :=
  ((stripLeftL s).reverse.dropWhile pyWhitespaceChar).reverse

/-- Case-sensitive prefix test. -/
def prefixL : List Char → List Char → Bool
  | [], _ => true
  | _ :: _, [] => false
  | p :: ps, c :: cs => p == c && prefixL ps cs

/-- Case-sensitive substring test (Python `needle in hay`). -/
def substrL (needle : List Char) : List Char → Bool
  | [] => prefixL needle []
  | c :: cs => prefixL needle (c :: cs) || substrL needle cs

/-- Case-insensitive literal match: if `pat` matches the front of `s`
(IGNORECASE, Latin-1 lowering on both sides), return the consumed original
characters and the rest of `s`. -/
def splitCaseless : List Char → List Char → Option (List Char × List Char)
  | [], s => some ([], s)
  | _ :: _, [] => none
  | p :: ps, c :: cs =>
    if pyLowerChar p == pyLowerChar c then
      match splitCaseless ps cs with
      | some (pre, rest) => some (c :: pre, rest)
      | none => none
    else none

/-- `true` when the next character position is not an ASCII word character
(the explicit `(?![A-Za-z0-9_])` lookahead). -/
def headNotAsciiWord : List Char → Bool
  | [] => true
  | c :: _ => !asciiWordChar c

/-- `true` when the next character position is a Python word boundary
(`\b` after a word character: next char not `\w`). -/
def headNotPyWord : List Char → Bool
  | [] => true
  | c :: _ => !pyWordChar c

/-! ### String-level wrappers -/

def pyLower (s : String) : String := String.mk (lowerL s.data)

def pyUpper (s : String) : String := String.mk (upperL s.data)

def pyStrip (s : String) : String := String.mk (stripL s.data)

def strPrefix (p s : String) : Bool := prefixL p.data s.data

def strContains (needle hay : String) : Bool := substrL needle.data hay.data

/-- Python string comparison (`<` on code points), used by
`heapq.nlargest` tie-breaking on `(ratio, candidate)` tuples. -/
def ltL : List Char → List Char → Bool
  | [], [] => false
  | [], _ :: _ => true
  | _ :: _, [] => false
  | a :: as_, b :: bs => a.toNat < b.toNat || (a == b && ltL as_ bs)

/-! ### The quarter helper (`SQLAgent._last_completed_quarter`) -/

/-- `(year, quarter)` of the last completed calendar quarter, relative to
the given current year and month (the source computes
`q = (month - 1) // 3 + 1` from `date.today()`). -/
def lastCompletedQuarter (year : Int) (month : Nat) : Int × Nat :=
  let q := (month - 1) / 3 + 1
  if q = 1 then (year - 1, 4) else (year, q - 1)

/-! ### Static configuration tables of `SQLAgent` -/

/-- `SQLAgent._COLUMN_SYNONYMS`, in Python dict insertion order
(the order `_replace_identifiers` iterates the mapping in). -/
def columnSynonyms : List (String × String) :=
  [("client_id", "client_key"), ("customer_id", "client_key"),
   ("employee_id", "employee_key"), ("project_id", "project_key"),
   ("ticket_id", "ticket_key"), ("currency_id", "currency_key"),
   ("date", "date_key"), ("date_id", "date_key"),
   ("billing_date", "date_key"), ("billing_date_key", "date_key"),
   ("issue_date_key", "date_key"), ("start_date_key", "date_key"),
   ("end_date_key", "date_key"),
   ("invoice_amount", "amount"), ("value", "amount"),
   ("product_name", "project_name")]

/-- `SQLAgent._DOTTABLE_COLS`. -/
def dottableCols : List String :=
  ["client_key", "employee_key", "project_key", "ticket_key", "currency_key",
   "amount", "tax", "date_key", "year", "month", "quarter", "week_of_year",
   "project_name", "client_name"]

/-- First-match association lookup (Python `dict.get` over unique keys). -/
def assocGet (m : List (String × String)) (k : String) : Option String :=
  (m.find? (fun p => p.1 == k)).map (·.2)

/-- `self._COLUMN_SYNONYMS.get(name.lower(), name)` — how the source
applies the synonym map to a column token. -/
def colSynApply (c : String) : String :=
  (assocGet columnSynonyms (pyLower c)).getD c

/-! ### Schema snapshot (from the DDL in
`src/utils/database_query.py`, fallback `create_oltp_schema` /
`create_dw_schema`), columns in DDL order. -/

structure DBTable where
  name : String
  cols : List String
deriving DecidableEq

def dwTables : List DBTable :=
  [⟨"dw_dim_date", ["date_key", "date_iso", "day", "month", "month_name",
      "quarter", "year", "week_of_year", "weekday", "weekday_name",
      "is_weekend"]⟩,
   ⟨"dw_dim_client", ["client_key", "client_id", "client_name", "industry",
      "size_segment", "country", "state", "city"]⟩,
   ⟨"dw_dim_employee", ["employee_key", "employee_id", "full_name",
      "department", "role", "manager_id", "team_id", "hire_date_key",
      "country", "state", "city"]⟩,
   ⟨"dw_dim_project", ["project_key", "project_id", "project_name",
      "client_key", "contract_type", "technology_primary", "status",
      "team_id", "start_date_key", "end_date_key", "currency"]⟩,
   ⟨"dw_dim_currency", ["currency_key", "code", "name"]⟩,
   ⟨"dw_dim_ticket", ["ticket_key", "ticket_id", "priority", "type"]⟩,
   ⟨"dw_fact_timesheet", ["fact_id", "date_key", "employee_key",
      "project_key", "hours", "billable"]⟩,
   ⟨"dw_fact_billing", ["fact_id", "date_key", "client_key", "project_key",
      "amount", "tax", "currency_key", "status"]⟩,
   ⟨"dw_fact_ticket", ["fact_id", "open_date_key", "close_date_key",
      "project_key", "ticket_key", "time_to_close_min", "sla_met",
      "status"]⟩]

def oltpTables : List DBTable :=
  [⟨"oltp_clients", ["id", "name", "tax_id", "industry", "size_segment",
      "country", "state", "city", "created_at"]⟩,
   ⟨"oltp_teams", ["id", "name", "department"]⟩,
   ⟨"oltp_employees", ["id", "first_name", "last_name", "email",
      "department", "role", "manager_id", "team_id", "hire_date", "salary",
      "country", "state", "city"]⟩,
   ⟨"oltp_technologies", ["id", "name", "category"]⟩,
   ⟨"oltp_employee_skills", ["id", "employee_id", "technology_id", "level"]⟩,
   ⟨"oltp_projects", ["id", "client_id", "name", "start_date", "end_date",
      "contract_type", "technology_primary", "status", "team_id",
      "daily_rate", "currency"]⟩,
   ⟨"oltp_assignments", ["id", "employee_id", "project_id", "start_date",
      "end_date", "allocation_pct"]⟩,
   ⟨"oltp_timesheets", ["id", "employee_id", "project_id", "work_date",
      "hours", "billing_rate", "approved"]⟩,
   ⟨"oltp_tickets", ["id", "project_id", "created_at", "closed_at",
      "priority", "type", "status", "sla_minutes", "assigned_employee_id"]⟩,
   ⟨"oltp_invoices", ["id", "client_id", "project_id", "issue_date",
      "due_date", "amount", "currency", "status", "tax"]⟩,
   ⟨"oltp_currencies", ["code", "name", "rate_to_usd"]⟩]

/-- The tables of the bootstrapped demo database (`AUTOINCREMENT` creates
`sqlite_sequence` once the seed inserts run). -/
def demoSchema : List DBTable :=
  oltpTables ++ dwTables ++ [⟨"sqlite_sequence", ["name", "seq"]⟩]

def schemaLookup (db : List DBTable) (t : String) : Option (List String) :=
  (db.find? (fun tb => tb.name == t)).map (·.cols)

/-- Insertion into an ascending list (code-point order). -/
def insertSorted (x : String) : List String → List String
  | [] => [x]
  | y :: ys =>
    if ltL x.data y.data || x == y then x :: y :: ys
    else y :: insertSorted x ys

/-- Table names, sorted ascending as `ORDER BY name` yields them. -/
def sortedNames (db : List DBTable) : List String :=
  (db.map (·.name)).foldr insertSorted []

/-! ### The database access layer (`AnalyticalCompanyDB`) -/

inductive SQLVal where
  | intV (i : Int)
  | textV (s : String)
  | nullV
deriving DecidableEq

/-- Sqlite row as returned through `sqlite3.Row`/`dict(r)`. -/
abbrev Row := List (String × SQLVal)

def rowGet (r : Row) (k : String) : Option SQLVal :=
  (r.find? (fun p => p.1 == k)).map (·.2)

/-- `str`-rendering of a value put into a `List[str]` position (the source
only ever meets `textV` here). -/
def SQLVal.display : SQLVal → String
  | .intV i => toString i
  | .textV s => s
  | .nullV => "None"

/-- The raw sqlite connection: a query string either yields rows and a
column list, or raises (an error message). -/
abbrev RawEngine := String → Except String (List Row × List String)

def masterTablesQuery : String :=
  "SELECT name FROM sqlite_master WHERE type='table' ORDER BY name"

def pragmaQueryFor (t : String) : String := "PRAGMA table_info(" ++ t ++ ")"

/-- `AnalyticalCompanyDB.execute_query`: runs the query, but only fetches
rows when the stripped upper-cased text starts with `SELECT`/`WITH`; any
other statement (notably `PRAGMA`) is committed and reported as
`([], [])`.  Errors are re-raised wrapped in `"Erro ao executar query: "`. -/
def executeQuery (raw : RawEngine) (q : String) :
    Except String (List Row × List String) :=
  match raw q with
  | .error e => .error ("Erro ao executar query: " ++ e)
  | .ok (rows, cols) =>
    let u := pyUpper (pyStrip q)
    if strPrefix "SELECT" u || strPrefix "WITH" u then .ok (rows, cols)
    else .ok ([], [])

/-- Rows produced by sqlite for `PRAGMA table_info` (modelled with the
`cid` and `name` fields the source reads). -/
def pragmaRows (cols : List String) : List Row :=
  cols.enum.map (fun p => [("cid", SQLVal.intV p.1), ("name", SQLVal.textV p.2)])

/-- Extract `t` from `"PRAGMA table_info(t)"`. -/
def parsePragmaTarget (q : String) : Option String :=
  match splitCaseless "PRAGMA table_info(".data q.data with
  | some (_, rest) =>
    match rest.reverse with
    | ')' :: inner => some (String.mk inner.reverse)
    | _ => none
  | none => none

/-- Model of the sqlite engine underneath `AnalyticalCompanyDB` for a fixed
database state: serves the table-list query and `PRAGMA table_info`; any
query outside this introspection fragment is left to a fallback oracle
(the live database). -/
def sqliteModelWith (fallback : RawEngine) (db : List DBTable) : RawEngine :=
  fun q =>
    if q == masterTablesQuery then
      .ok ((sortedNames db).map (fun n => [("name", SQLVal.textV n)]), ["name"])
    else
      match parsePragmaTarget q with
      | some t => .ok (pragmaRows ((schemaLookup db t).getD []), ["cid", "name"])
      | none => fallback q

/-- Introspection-only engine: everything else errors like sqlite. -/
def sqliteModel (db : List DBTable) : RawEngine :=
  sqliteModelWith (fun q => .error ("near \"" ++ q ++ "\": syntax error")) db

/-- `SQLAgent._get_available_tables` (also
`AnalyticalCompanyDB.get_all_tables`): list table names, `[]` on error. -/
def getAvailableTables (raw : RawEngine) : List String :=
  match executeQuery raw masterTablesQuery with
  | .error _ => []
  | .ok (rows, _) =>
    match rows.mapM (fun r => rowGet r "name") with
    | some vs => vs.map SQLVal.display
    | none => []

/-- `SQLAgent._get_table_columns`: PRAGMA the table, collect the `name`
field of each row, `[]` on error. -/
def getTableColumns (raw : RawEngine) (t : String) : List String :=
  match executeQuery raw (pragmaQueryFor t) with
  | .error _ => []
  | .ok (rows, _) => rows.map (fun r => ((rowGet r "name").getD .nullV).display)

/-- `SQLAgent._get_all_columns`. -/
def getAllColumns (raw : RawEngine) : List (String × List String) :=
  (getAvailableTables raw).map (fun t => (t, getTableColumns raw t))

/-! ### `SQLAgent._replace_identifiers`

The pattern is `(?<![A-Za-z0-9_])src(?![A-Za-z0-9_])` with `re.escape(src)`
and IGNORECASE: a case-insensitive literal occurrence of `src` whose
neighbours are not in the explicit ASCII identifier class.  `re.sub` scans
left to right without overlap, and the lookbehind inspects the original
text, so the scanner below carries the word-character status of the
previously consumed original character. -/

/-- A qualifying match of `src` at the front of `s`: the previous character
was not an identifier character, `src` matches case-insensitively, and the
following character is not an identifier character.  Returns the consumed
original characters and the rest. -/
def wordBoundedAt (src : List Char) (prevW : Bool) (s : List Char) :
    Option (List Char × List Char) :=
  if prevW || src.isEmpty then none
  else
    match splitCaseless src s with
    | some (pre, rest) =>
      if headNotAsciiWord rest then some (pre, rest) else none
    | none => none

def replaceIdentGo (src dst : List Char) : Nat → Bool → List Char → List Char
  | 0, _, s => s
  | _ + 1, _, [] => []
  | fuel + 1, prevW, c :: cs =>
    match wordBoundedAt src prevW (c :: cs) with
    | some (pre, rest) =>
      dst ++ replaceIdentGo src dst fuel (asciiWordChar (pre.getLastD c)) rest
    | none => c :: replaceIdentGo src dst fuel (asciiWordChar c) cs

/-- Decides whether `s` has any whole-word (ASCII-identifier-delimited)
case-insensitive occurrence of `src`, scanning exactly like
`replaceIdentGo`. -/
def hasWholeWordGo (src : List Char) : Nat → Bool → List Char → Bool
  | 0, _, _ => false
  | _ + 1, _, [] => false
  | fuel + 1, prevW, c :: cs =>
    match wordBoundedAt src prevW (c :: cs) with
    | some _ => true
    | none => hasWholeWordGo src fuel (asciiWordChar c) cs

/-- One substitution of `_replace_identifiers`. -/
def replaceIdent (src dst s : String) : String :=
  String.mk (replaceIdentGo src.data dst.data s.data.length false s.data)

/-- Whole-word occurrence test at the string level. -/
def hasWholeWord (src s : String) : Bool :=
  hasWholeWordGo src.data s.data.length false s.data

/-- `SQLAgent._replace_identifiers`: fold the mapping in insertion order,
skipping empty or identity pairs. -/
def replaceIdentifiers (m : List (String × String)) (sql : String) : String :=
  m.foldl
    (fun acc p =>
      if p.1 == "" || p.2 == "" || p.1 == p.2 then acc
      else replaceIdent p.1 p.2 acc)
    sql

/-! ### Word-boundary alternative substitution

Each entry of the `preferred` table in `_normalize_table_names` is a regex
of the shape `\b(lit₁|lit₂|…)\b` (plural suffixes and character classes
expanded into literal alternatives, longest first, matching the greedy
`s?` / left-to-right alternation of the engine), applied with IGNORECASE
and Unicode word boundaries. -/

/-- Try the alternatives in order at the front of `s`; an alternative
succeeds when it matches case-insensitively and is followed by a word
boundary. -/
def tryAlts (alts : List (List Char)) (s : List Char) :
    Option (List Char × List Char) :=
  match alts with
  | [] => none
  | a :: rest =>
    match splitCaseless a s with
    | some (pre, r) =>
      if headNotPyWord r && !a.isEmpty then some (pre, r) else tryAlts rest s
    | none => tryAlts rest s

def replaceAltsGo (alts : List (List Char)) (target : List Char) :
    Nat → Bool → List Char → List Char
  | 0, _, s => s
  | _ + 1, _, [] => []
  | fuel + 1, prevW, c :: cs =>
    if prevW then c :: replaceAltsGo alts target fuel (pyWordChar c) cs
    else
      match tryAlts alts (c :: cs) with
      | some (pre, rest) =>
        target ++ replaceAltsGo alts target fuel (pyWordChar (pre.getLastD c)) rest
      | none => c :: replaceAltsGo alts target fuel (pyWordChar c) cs

def replaceAlts (alts : List String) (target : String) (s : String) : String :=
  String.mk (replaceAltsGo (alts.map String.data) target.data s.data.length false s.data)

/-- Search `\b(alt₁|alt₂|…)\b` (IGNORECASE): does any alternative occur
word-bounded anywhere in `s`? -/
def searchAltsGo (alts : List (List Char)) : Nat → Bool → List Char → Bool
  | 0, _, _ => false
  | _ + 1, _, [] => false
  | fuel + 1, prevW, c :: cs =>
    if prevW then searchAltsGo alts fuel (pyWordChar c) cs
    else
      match tryAlts alts (c :: cs) with
      | some _ => true
      | none => searchAltsGo alts fuel (pyWordChar c) cs

def searchAlts (alts : List String) (s : String) : Bool :=
  searchAltsGo (alts.map String.data) s.data.length false s.data

/-! ### Token takers for the extraction regexes -/

def isAsciiAlpha (c : Char) : Bool :=
  let n := c.toNat
  (65 ≤ n && n ≤ 90) || (97 ≤ n && n ≤ 122)

/-- `[A-Za-z][A-Za-z0-9_]*`, greedy. -/
def takeAlphaWord : List Char → Option (List Char × List Char)
  | [] => none
  | c :: cs =>
    if isAsciiAlpha c then
      let p := cs.span asciiWordChar
      some (c :: p.1, p.2)
    else none

/-- `[A-Za-z0-9_]+`, greedy. -/
def takeAsciiWord (s : List Char) : Option (List Char × List Char) :=
  let p := s.span asciiWordChar
  if p.1.isEmpty then none else some p

/-- `\s+`, greedy. -/
def takeWs1 (s : List Char) : Option (List Char) :=
  let p := s.span pyWhitespaceChar
  if p.1.isEmpty then none else some p.2

/-! ### `SQLAgent._extract_tables` -/

/-- `re.sub(r"--.*?$", "", sql, flags=re.MULTILINE)`: delete from `--` to
the end of each line (the newline survives, `$` matching before it). -/
def stripLineCommentsGo : Nat → List Char → List Char
  | 0, s => s
  | _ + 1, [] => []
  | fuel + 1, c :: cs =>
    if c == '-' then
      match cs with
      | '-' :: rest =>
        stripLineCommentsGo fuel (rest.dropWhile (fun ch => ch != '\n'))
      | _ => c :: stripLineCommentsGo fuel cs
    else c :: stripLineCommentsGo fuel cs

def stripLineComments (s : List Char) : List Char :=
  stripLineCommentsGo s.length s

/-- One attempt of `\b(?:FROM|JOIN)\s+([`"']?)([A-Za-z0-9_]+)\1` at the
current position (which is already known to be a word boundary): returns
the captured table name and the rest after the whole match. -/
def matchFromJoinTable (s : List Char) :
    Option (List Char × Bool × List Char) :=
  let kw :=
    match splitCaseless "FROM".data s with
    | some (_, r) => some r
    | none =>
      match splitCaseless "JOIN".data s with
      | some (_, r) => some r
      | none => none
  match kw with
  | none => none
  | some afterKw =>
    match takeWs1 afterKw with
    | none => none
    | some afterWs =>
      match afterWs with
      | q :: afterQ =>
        if q == '`' || q == '"' || q == '\'' then
          -- quoted branch; on failure the optional group backtracks to
          -- empty, but `[A-Za-z0-9_]+` cannot start on the quote itself.
          -- The last consumed character is the closing quote (not a word
          -- character).
          match takeAsciiWord afterQ with
          | some (name, q2 :: rest2) =>
            if q2 == q then some (name, false, rest2) else none
          | _ => none
        else
          match takeAsciiWord afterWs with
          | some (name, rest2) => some (name, true, rest2)
          | none => none
      | [] => none

def extractTablesGo : Nat → Bool → List Char → List String
  | 0, _, _ => []
  | _ + 1, _, [] => []
  | fuel + 1, prevW, c :: cs =>
    if prevW then extractTablesGo fuel (pyWordChar c) cs
    else
      match matchFromJoinTable (c :: cs) with
      | some (name, pw, rest) =>
        String.mk name :: extractTablesGo fuel pw rest
      | none => extractTablesGo fuel (pyWordChar c) cs

/-- `SQLAgent._extract_tables`. -/
def extractTables (sql : String) : List String :=
  if sql == "" then []
  else
    let noComments := stripLineComments sql.data
    extractTablesGo noComments.length false noComments

/-! ### `SQLAgent._extract_table_aliases` -/

def aliasStopwords : List String :=
  ["ON", "WHERE", "GROUP", "ORDER", "LEFT", "RIGHT", "INNER", "OUTER", "JOIN"]

/-- Insert preserving first-insertion order, overwriting the value of an
existing key (Python `dict.__setitem__`). -/
def dictInsert (m : List (String × String)) (k v : String) :
    List (String × String) :=
  if (m.find? (fun p => p.1 == k)).isSome then
    m.map (fun p => if p.1 == k then (k, v) else p)
  else m ++ [(k, v)]

/-- One attempt of
`\b(?:FROM|JOIN)\s+([A-Za-z0-9_]+)\s+(?:AS\s+)?([A-Za-z][A-Za-z0-9_]*)`:
returns `(table, alias, rest)`. -/
def matchFromJoinAlias (s : List Char) : Option (List Char × List Char × List Char) :=
  let kw :=
    match splitCaseless "FROM".data s with
    | some (_, r) => some r
    | none =>
      match splitCaseless "JOIN".data s with
      | some (_, r) => some r
      | none => none
  match kw with
  | none => none
  | some afterKw =>
    match takeWs1 afterKw with
    | none => none
    | some afterWs =>
      match takeAsciiWord afterWs with
      | none => none
      | some (table, afterTable) =>
        match takeWs1 afterTable with
        | none => none
        | some afterWs2 =>
          -- `(?:AS\s+)?` is tried greedily and backtracked when the alias
          -- cannot follow it
          let withAs :=
            match splitCaseless "AS".data afterWs2 with
            | some (_, afterAs) =>
              match takeWs1 afterAs with
              | some afterAsWs =>
                match takeAlphaWord afterAsWs with
                | some (al, rest) => some (table, al, rest)
                | none => none
              | none => none
            | none => none
          match withAs with
          | some r => some r
          | none =>
            match takeAlphaWord afterWs2 with
            | some (al, rest) => some (table, al, rest)
            | none => none

def extractTableAliasesGo :
    Nat → Bool → List Char → List (String × String) → List (String × String)
  | 0, _, _, acc => acc
  | _ + 1, _, [], acc => acc
  | fuel + 1, prevW, c :: cs, acc =>
    if prevW then extractTableAliasesGo fuel (pyWordChar c) cs acc
    else
      match matchFromJoinAlias (c :: cs) with
      | some (table, al, rest) =>
        let alS := String.mk al
        let acc2 :=
          if aliasStopwords.contains (pyUpper alS) then acc
          else dictInsert acc (String.mk table) alS
        extractTableAliasesGo fuel true rest acc2
      | none => extractTableAliasesGo fuel (pyWordChar c) cs acc

/-- `SQLAgent._extract_table_aliases`: `{table: alias}` in first-insertion
order. -/
def extractTableAliases (sql : String) : List (String × String) :=
  extractTableAliasesGo sql.data.length false sql.data []

/-! ### `SQLAgent._fix_alias_column_spacing` -/

/-- One attempt of `\b([A-Za-z][A-Za-z0-9_]*)\s+([A-Za-z][A-Za-z0-9_]*)\b`
at a word-boundary position: `(left, matchedText, right, rest)`. -/
def matchAliasSpace (s : List Char) :
    Option (List Char × List Char × List Char × List Char) :=
  match takeAlphaWord s with
  | none => none
  | some (w1, r1) =>
    let p := r1.span pyWhitespaceChar
    if p.1.isEmpty then none
    else
      match takeAlphaWord p.2 with
      | none => none
      | some (w2, rest) =>
        if headNotPyWord rest then some (w1, w1 ++ p.1 ++ w2, w2, rest)
        else none

def fixAliasSpacingGo (aliases : List String) :
    Nat → Bool → List Char → List Char
  | 0, _, s => s
  | _ + 1, _, [] => []
  | fuel + 1, prevW, c :: cs =>
    if prevW then c :: fixAliasSpacingGo aliases fuel (pyWordChar c) cs
    else
      match matchAliasSpace (c :: cs) with
      | some (w1, whole, w2, rest) =>
        let left := String.mk w1
        let replacement :=
          if aliases.contains left then
            let rightNorm :=
              (assocGet columnSynonyms (pyLower (String.mk w2))).getD (String.mk w2)
            if dottableCols.contains rightNorm then
              left ++ "." ++ rightNorm
            else String.mk whole
          else String.mk whole
        replacement.data ++ fixAliasSpacingGo aliases fuel true rest
      | none => c :: fixAliasSpacingGo aliases fuel (pyWordChar c) cs

/-- `SQLAgent._fix_alias_column_spacing`. -/
def fixAliasColumnSpacing (sql : String) : String :=
  if sql == "" then sql
  else
    let aliases := (extractTableAliases sql).map (·.2)
    if aliases == [] then sql
    else String.mk (fixAliasSpacingGo aliases sql.data.length false sql.data)

/-! ### `SQLAgent._normalize_join_keys` -/

/-- The `key_map` dict, in insertion order: entity ↦ (legacy, canonical). -/
def joinKeyMap : List (String × String × String) :=
  [("client", "client_id", "client_key"),
   ("project", "project_id", "project_key"),
   ("employee", "employee_id", "employee_key"),
   ("ticket", "ticket_id", "ticket_key"),
   ("date", "date", "date_key")]

/-- The `dim_aliases` dict: entity ↦ dimension table. -/
def dimTableOf : List (String × String) :=
  [("client", "dw_dim_client"), ("project", "dw_dim_project"),
   ("employee", "dw_dim_employee"), ("ticket", "dw_dim_ticket"),
   ("date", "dw_dim_date")]

/-- `SQLAgent._normalize_join_keys`. -/
def normalizeJoinKeys (sql : String) : String :=
  if sql == "" then sql
  else
    let tblAlias := extractTableAliases sql
    let factAliases :=
      [assocGet tblAlias "dw_fact_billing",
       assocGet tblAlias "dw_fact_timesheet",
       assocGet tblAlias "dw_fact_ticket"].filterMap id
    let repl0 :=
      factAliases.foldl
        (fun acc a =>
          joinKeyMap.foldl
            (fun acc2 km =>
              dictInsert acc2 (a ++ "." ++ km.2.1) (a ++ "." ++ km.2.2))
            acc)
        []
    let replacements :=
      dimTableOf.foldl
        (fun acc d =>
          match assocGet tblAlias d.2 with
          | none => acc
          | some a =>
            match (joinKeyMap.find? (fun km => km.1 == d.1)) with
            | some km => dictInsert acc (a ++ "." ++ km.2.1) (a ++ "." ++ km.2.2)
            | none => acc)
        repl0
    let sql2 :=
      if replacements == [] then sql else replaceIdentifiers replacements sql
    -- raw synonyms without aliases (`{k: v for k, v in … if k != v}` keeps
    -- every entry of the table, none being an identity pair)
    replaceIdentifiers columnSynonyms sql2

/-! ### `SQLAgent._normalize_table_names` -/

/-- The `preferred` regex battery, in dict insertion order; each pattern is
expanded into its literal alternatives (greedy plural suffix first,
character classes split). -/
def preferredPatterns : List (List String × String) :=
  [(["clients", "client"], "dw_dim_client"),
   (["customers", "customer"], "dw_dim_client"),
   (["clientes", "cliente"], "dw_dim_client"),
   (["employees", "employee"], "dw_dim_employee"),
   (["funcionarios", "funcionários", "funcionario", "funcionário"],
      "dw_dim_employee"),
   (["projects", "project"], "dw_dim_project"),
   (["projetos", "projeto"], "dw_dim_project"),
   (["produtos", "produto"], "dw_dim_project"),
   (["timesheets", "timesheet"], "dw_fact_timesheet"),
   (["horas", "hora"], "dw_fact_timesheet"),
   (["billings", "billing"], "dw_fact_billing"),
   (["receitas", "receita"], "dw_fact_billing"),
   (["faturamento"], "dw_fact_billing"),
   (["invoices", "invoice"], "dw_fact_billing"),
   (["faturas", "fatura"], "dw_fact_billing"),
   (["sales", "sale"], "dw_fact_billing"),
   (["tickets", "ticket"], "dw_fact_ticket"),
   (["date_dim"], "dw_dim_date"),
   (["dim_date"], "dw_dim_date"),
   (["datas", "data"], "dw_dim_date"),
   (["currency", "currencies"], "dw_dim_currency"),
   (["moedas", "moeda"], "dw_dim_currency"),
   (["dim_currency"], "dw_dim_currency"),
   (["dim_ticket"], "dw_dim_ticket"),
   (["dw_fact_sales"], "dw_fact_billing"),
   (["oltp_fact_sales"], "dw_fact_billing"),
   (["fact_sales"], "dw_fact_billing")]

/-- Step 0 of `_normalize_table_names`: the learned aliases, applied first,
each through the whole-word case-insensitive substitution, only when the
target table exists. -/
def applyLearnedAliases (learned : List (String × String))
    (avail : List String) (sql : String) : String :=
  learned.foldl
    (fun acc p =>
      if avail.contains p.2 && p.1 != "" then replaceIdent p.1 p.2 acc
      else acc)
    sql

/-- Step 1: the synonym battery, each pattern applied only when its target
table is present. -/
def applyPreferredPatterns (avail : List String) (sql : String) : String :=
  preferredPatterns.foldl
    (fun acc p =>
      if avail.contains p.2 then replaceAlts p.1 p.2 acc else acc)
    sql

/-- Step 2: `\boltp_fact_([A-Za-z0-9_]+)\b` rewritten to the matching
`dw_fact_*` when that table exists (the suffix keeps its original case and
the membership test is case-sensitive). -/
def oltpFactToDwGo (avail : List String) : Nat → Bool → List Char → List Char
  | 0, _, s => s
  | _ + 1, _, [] => []
  | fuel + 1, prevW, c :: cs =>
    if prevW then c :: oltpFactToDwGo avail fuel (pyWordChar c) cs
    else
      match splitCaseless "oltp_fact_".data (c :: cs) with
      | some (pre, afterLit) =>
        match takeAsciiWord afterLit with
        | some (suffix, rest) =>
          if headNotPyWord rest then
            let target := "dw_fact_" ++ String.mk suffix
            let emitted := if avail.contains target then target.data else pre ++ suffix
            emitted ++ oltpFactToDwGo avail fuel true rest
          else c :: oltpFactToDwGo avail fuel (pyWordChar c) cs
        | none => c :: oltpFactToDwGo avail fuel (pyWordChar c) cs
      | none => c :: oltpFactToDwGo avail fuel (pyWordChar c) cs

def oltpFactToDw (avail : List String) (sql : String) : String :=
  String.mk (oltpFactToDwGo avail sql.data.length false sql.data)

/-- `SQLAgent._normalize_table_names` against a fixed table list. -/
def normalizeTableNames (learned : List (String × String))
    (avail : List String) (sql : String) : String :=
  if sql == "" then sql
  else
    oltpFactToDw avail
      (applyPreferredPatterns avail (applyLearnedAliases learned avail sql))

/-! ### `SQLAgent._ensure_single_statement` -/

/-- `re.sub(lit ++ "\s*", "", s)` for a literal prefix (IGNORECASE). -/
def removeLitWsGo (lit : List Char) : Nat → List Char → List Char
  | 0, s => s
  | _ + 1, [] => []
  | fuel + 1, c :: cs =>
    match splitCaseless lit (c :: cs) with
    | some (_, rest) => removeLitWsGo lit fuel (rest.dropWhile pyWhitespaceChar)
    | none => c :: removeLitWsGo lit fuel cs

def removeLitWs (lit : String) (s : List Char) : List Char :=
  removeLitWsGo lit.data s.length s

def sqlLabelPhrases : List String := ["query sql", "consulta sql", "sql query"]

/-- One attempt of `\b(query sql|consulta sql|sql query)\s*:\s*`. -/
def matchSqlLabel (s : List Char) : Option (List Char) :=
  sqlLabelPhrases.foldl
    (fun acc ph =>
      match acc with
      | some r => some r
      | none =>
        match splitCaseless ph.data s with
        | some (_, afterPh) =>
          match (afterPh.dropWhile pyWhitespaceChar) with
          | ':' :: afterColon => some (afterColon.dropWhile pyWhitespaceChar)
          | _ => none
        | none => none)
    none

def removeSqlLabelsGo : Nat → Bool → List Char → List Char
  | 0, _, s => s
  | _ + 1, _, [] => []
  | fuel + 1, prevW, c :: cs =>
    if prevW then c :: removeSqlLabelsGo fuel (pyWordChar c) cs
    else
      match matchSqlLabel (c :: cs) with
      | some rest => removeSqlLabelsGo fuel false rest
      | none => c :: removeSqlLabelsGo fuel (pyWordChar c) cs

/-- `re.split(r';\s*', t)`. -/
def splitSemiWs : Nat → List Char → List (List Char)
  | 0, s => [s]
  | _ + 1, [] => [[]]
  | fuel + 1, c :: cs =>
    if c == ';' then [] :: splitSemiWs fuel (cs.dropWhile pyWhitespaceChar)
    else
      match splitSemiWs fuel cs with
      | [] => [[c]]
      | h :: t => (c :: h) :: t

def sqlStartKeywords : List String :=
  ["SELECT", "WITH", "INSERT", "UPDATE", "DELETE"]

/-- `_is_sql_start`. -/
def isSqlStart (s : List Char) : Bool :=
  let up := upperL (stripL s)
  sqlStartKeywords.any (fun k => prefixL k.data up)

/-- `SQLAgent._ensure_single_statement`. -/
def ensureSingleStatement (text : String) : String :=
  let t1 := removeLitWs "```sql" text.data
  let t2 := removeLitWs "```" t1
  let t3 := removeSqlLabelsGo t2.length false t2
  let t := stripL t3
  let parts := ((splitSemiWs t.length t).map stripL).filter (· != [])
  if parts == [] then String.mk t
  else
    match parts.find? isSqlStart with
    | some p => String.mk p
    | none => String.mk (parts.headD [])

/-! ### `SQLAgent._strip_trailing_explanation` and `_clean_sql_response` -/

def explanationMarkers : List String :=
  ["explica", "explicação", "explanation", "note", "obs", "nesta versão",
   "this query", "essa consulta"]

/-- Prefix of `s` before the first word-bounded explanation marker
(`re.split(markerPattern, sql)[0]`). -/
def cutExplanationGo : Nat → Bool → List Char → List Char
  | 0, _, s => s
  | _ + 1, _, [] => []
  | fuel + 1, prevW, c :: cs =>
    if prevW then c :: cutExplanationGo fuel (pyWordChar c) cs
    else
      match tryAlts (explanationMarkers.map String.data) (c :: cs) with
      | some _ => []
      | none => c :: cutExplanationGo fuel (pyWordChar c) cs

/-- `SQLAgent._strip_trailing_explanation`. -/
def stripTrailingExplanation (sql : String) : String :=
  let s := stripL sql.data
  let s2 :=
    if s.contains ';' then stripL (s.takeWhile (fun c => c != ';')) else s
  String.mk (stripL (cutExplanationGo s2.length false s2))

/-- First position of `(?is)\b(SELECT|WITH)\b`; returns the rest of the
string from there (the DOTALL `.*` captures to the end). -/
def findSelectWithGo : Nat → Bool → List Char → Option (List Char)
  | 0, _, _ => none
  | _ + 1, _, [] => none
  | fuel + 1, prevW, c :: cs =>
    if prevW then findSelectWithGo fuel (pyWordChar c) cs
    else
      match tryAlts ["SELECT".data, "WITH".data] (c :: cs) with
      | some _ => some (c :: cs)
      | none => findSelectWithGo fuel (pyWordChar c) cs

/-- `SQLAgent._clean_sql_response`. -/
def cleanSqlResponse (response : String) : String :=
  let one := ensureSingleStatement response
  let sql :=
    match findSelectWithGo one.data.length false one.data with
    | some tail => stripL tail
    | none => stripL one.data
  stripTrailingExplanation (String.mk sql)

/-! ### `difflib` (`SequenceMatcher` / `get_close_matches`)

The agent's strings are far below the 200-element autojunk bound and no
junk predicate is passed, so the junk machinery is inert.  The
`quick_ratio`/`real_quick_ratio` gates of `get_close_matches` are upper
bounds of `ratio`, so the triple conjunction with the cutoff is equivalent
to `ratio >= cutoff`; ratios `2*M/T` are compared exactly as rationals,
which agrees with the float comparison at these string lengths. -/

/-- Ascending positions of `x` in `b` within `[blo, bhi)` (`b2j`). -/
def posnsOf (b : List Char) (x : Char) (blo bhi : Nat) : List Nat :=
  ((List.range b.length).filter
    (fun j => blo ≤ j && j < bhi && b.getD j ' ' == x))

/-- One row of the `find_longest_match` dynamic program: process element
`a[i]`, returning the new `j2len` association and the updated best
`(besti, bestj, bestsize)`. -/
def flmRow (i : Nat) (js : List Nat) (j2len : List (Nat × Nat))
    (best : Nat × Nat × Nat) : List (Nat × Nat) × (Nat × Nat × Nat) :=
  js.foldl
    (fun st j =>
      let prev :=
        if j == 0 then 0
        else ((j2len.find? (fun p => p.1 == j - 1)).map (·.2)).getD 0
      let k := prev + 1
      let newAssoc := st.1 ++ [(j, k)]
      let best0 := st.2
      if k > best0.2.2 then (newAssoc, (i - k + 1, j - k + 1, k))
      else (newAssoc, best0))
    ([], best)

/-- `SequenceMatcher.find_longest_match(alo, ahi, blo, bhi)` (no junk). -/
def findLongestMatch (a b : List Char) (alo ahi blo bhi : Nat) :
    Nat × Nat × Nat :=
  let core :=
    ((List.range ahi).drop alo).foldl
      (fun st i =>
        let r := flmRow i (posnsOf b (a.getD i ' ') blo bhi) st.1 st.2
        (r.1, r.2))
      (([] : List (Nat × Nat)), (alo, blo, 0))
  -- extension loops (the non-junk while-loops after the DP)
  let extendLeft : Nat → Nat × Nat × Nat → Nat × Nat × Nat := fun fuel st =>
    (List.range fuel).foldl
      (fun st2 _ =>
        let (bi, bj, bs) := st2
        if bi > alo && bj > blo && a.getD (bi - 1) ' ' == b.getD (bj - 1) ' '
        then (bi - 1, bj - 1, bs + 1) else st2)
      st
  let extendRight : Nat → Nat × Nat × Nat → Nat × Nat × Nat := fun fuel st =>
    (List.range fuel).foldl
      (fun st2 _ =>
        let (bi, bj, bs) := st2
        if bi + bs < ahi && bj + bs < bhi &&
            a.getD (bi + bs) ' ' == b.getD (bj + bs) ' '
        then (bi, bj, bs + 1) else st2)
      st
  extendRight (ahi + bhi) (extendLeft (ahi + bhi) core.2)

/-- Total size of all matching blocks (`get_matching_blocks`, summed). -/
def matchTotalGo (a b : List Char) : Nat → Nat → Nat → Nat → Nat → Nat
  | 0, _, _, _, _ => 0
  | fuel + 1, alo, ahi, blo, bhi =>
    let m := findLongestMatch a b alo ahi blo bhi
    let i := m.1
    let j := m.2.1
    let k := m.2.2
    if k == 0 then 0
    else
      k + matchTotalGo a b fuel alo i blo j +
        matchTotalGo a b fuel (i + k) ahi (j + k) bhi

/-- `2 * M` and `T` of `SequenceMatcher(None, a, b).ratio() = 2M/T`. -/
def ratioParts (a b : List Char) : Nat × Nat :=
  (2 * matchTotalGo a b (a.length + b.length + 1) 0 a.length 0 b.length,
   a.length + b.length)

/-- `difflib.get_close_matches(word, possibilities, n=1, cutoff)`:
candidates with `ratio >= cutoff` ranked by `(ratio, candidate)`
(`heapq.nlargest` on those tuples breaks ratio ties by string order). -/
def closeMatch1 (word : String) (poss : List String) (cutNum cutDen : Nat) :
    Option String :=
  poss.foldl
    (fun best x =>
      let r := ratioParts x.data word.data
      if r.1 * cutDen < cutNum * r.2 then best
      else
        match best with
        | none => some (r.1, r.2, x)
        | some (n0, d0, x0) =>
          if r.1 * d0 > n0 * r.2 ||
              (r.1 * d0 == n0 * r.2 && ltL x0.data x.data) then
            some (r.1, r.2, x)
          else best)
    none
  |>.map (·.2.2)

/-! ### `SQLAgent._best_table_match` / `_map_table_alias` -/

/-- Python `str.replace(pat, "")`, case-sensitive, all occurrences. -/
def removeSubstrGo (pat : List Char) : Nat → List Char → List Char
  | 0, s => s
  | _ + 1, [] => []
  | fuel + 1, c :: cs =>
    if !pat.isEmpty && prefixL pat (c :: cs) then
      removeSubstrGo pat fuel (cs.drop (pat.length - 1))
    else c :: removeSubstrGo pat fuel cs

def removeSubstr (pat : String) (s : String) : String :=
  String.mk (removeSubstrGo pat.data s.data.length s.data)

/-- The `dim_map` dict of `_best_table_match`, in insertion order. -/
def dimMap : List (String × String) :=
  [("client", "dw_dim_client"), ("employee", "dw_dim_employee"),
   ("project", "dw_dim_project"), ("currency", "dw_dim_currency"),
   ("date", "dw_dim_date"), ("ticket", "dw_dim_ticket")]

/-- `SQLAgent._best_table_match`. -/
def bestTableMatch (missing : String) (avail : List String) : Option String :=
  if missing == "" || avail.isEmpty then none
  else
    let name := pyLower missing
    if strContains "sales" name && avail.contains "dw_fact_billing" then
      some "dw_fact_billing"
    else if strContains "timesheet" name && avail.contains "dw_fact_timesheet"
    then some "dw_fact_timesheet"
    else if strContains "ticket" name && avail.contains "dw_fact_ticket" then
      some "dw_fact_ticket"
    else
      let oltpHit :=
        if strPrefix "oltp_fact_" name then
          let candidate := "dw_fact_" ++ removeSubstr "oltp_fact_" name
          if avail.contains candidate then some candidate else none
        else none
      match oltpHit with
      | some c => some c
      | none =>
        match
          dimMap.find?
            (fun d => strContains d.1 name && avail.contains d.2)
        with
        | some d => some d.2
        | none => closeMatch1 missing avail 6 10

/-- `SQLAgent._map_table_alias`. -/
def mapTableAlias (learned : List (String × String)) (tableName : String)
    (avail : List String) : Option String :=
  match assocGet learned tableName with
  | some r =>
    if avail.contains r then some r else bestTableMatch tableName avail
  | none => bestTableMatch tableName avail

/-- `SQLAgent._learn_alias` (the persistent map update; the file write is
the persistence side-effect). -/
def learnAlias (learned : List (String × String)) (wrong correct : String) :
    List (String × String) :=
  let wrongKey := pyStrip wrong
  if wrongKey != "" && correct != "" && wrongKey != correct then
    dictInsert learned wrongKey correct
  else learned

/-! ### `SQLAgent._validate_and_autocorrect_sql` -/

/-- Result of `_validate_and_autocorrect_sql`: the rewritten SQL, whether
the missing-table heuristic (`_map_table_alias`, the fuzzy step) was
invoked, and the updated learned-alias map. -/
structure ValidateOut where
  sql : String
  fuzzyUsed : Bool
  learned : List (String × String)
deriving DecidableEq

/-- `SQLAgent._validate_and_autocorrect_sql`.
1. keep a single statement / strip prose, 2. normalize table names,
3. alias–space–column repair, 4. join-key normalization, 5. map missing
tables via `_map_table_alias`, learning each substitution. -/
def validateAndAutocorrectSql (raw : RawEngine)
    (learned : List (String × String)) (sql0 : String) : ValidateOut :=
  if sql0 == "" then ⟨sql0, false, learned⟩
  else
    let sql1 := cleanSqlResponse sql0
    let avail := getAvailableTables raw
    if avail.isEmpty then ⟨sql1, false, learned⟩
    else
      let f1 := normalizeTableNames learned avail sql1
      let f2 := fixAliasColumnSpacing f1
      let f3 := normalizeJoinKeys f2
      let tables := extractTables f3
      let missing := tables.filter (fun t => !avail.contains t)
      if missing.isEmpty then ⟨f3, false, learned⟩
      else
        let rmap :=
          missing.foldl
            (fun acc t =>
              match mapTableAlias learned t avail with
              | some tgt => dictInsert acc t tgt
              | none => acc)
            []
        if rmap.isEmpty then ⟨f3, true, learned⟩
        else
          let f4 := replaceIdentifiers rmap f3
          let learned2 := rmap.foldl (fun l p => learnAlias l p.1 p.2) learned
          ⟨f4, true, learned2⟩

/-! ### `SQLAgent._try_fix_missing_column` -/

/-- Attempt of `no such column:\s*([A-Za-z0-9_]+(?:\.[A-Za-z0-9_]+)?)`
(IGNORECASE) at the current position: the captured token. -/
def matchNoSuchColumn (s : List Char) : Option (List Char) :=
  match splitCaseless "no such column:".data s with
  | some (_, rest) =>
    let afterWs := rest.dropWhile pyWhitespaceChar
    match takeAsciiWord afterWs with
    | some (w1, r1) =>
      match r1 with
      | '.' :: r2 =>
        match takeAsciiWord r2 with
        | some (w2, _) => some (w1 ++ '.' :: w2)
        | none => some w1
      | _ => some w1
    | none => none
  | none => none

def findNoSuchColumnGo : Nat → List Char → Option (List Char)
  | 0, _ => none
  | _ + 1, [] => none
  | fuel + 1, c :: cs =>
    match matchNoSuchColumn (c :: cs) with
    | some g => some g
    | none => findNoSuchColumnGo fuel cs

/-- Attempt of `no such table:\s*([A-Za-z0-9_]+)` (IGNORECASE). -/
def matchNoSuchTable (s : List Char) : Option (List Char) :=
  match splitCaseless "no such table:".data s with
  | some (_, rest) =>
    match takeAsciiWord (rest.dropWhile pyWhitespaceChar) with
    | some (w, _) => some w
    | none => none
  | none => none

def findNoSuchTableGo : Nat → List Char → Option (List Char)
  | 0, _ => none
  | _ + 1, [] => none
  | fuel + 1, c :: cs =>
    match matchNoSuchTable (c :: cs) with
    | some g => some g
    | none => findNoSuchTableGo fuel cs

/-- Append-absent union (models accumulating a Python `set`; the order is
irrelevant downstream because `get_close_matches` ranks by
`(ratio, string)` tuples). -/
def setUnion (acc : List String) (xs : List String) : List String :=
  xs.foldl (fun a x => if a.contains x then a else a ++ [x]) acc

/-- `SQLAgent._try_fix_missing_column`, over the column introspection the
method reaches through `self` (`_get_table_columns` / `_get_all_columns`).
1. strip the alias qualifier, 2. direct synonym lookup, 3. closest match
(cutoff 0.7) among the referenced tables' columns — or all tables' when
that set is empty, 4. date-like legacy names to `date_key`. -/
def tryFixMissingColumnWith (cols : String → List String)
    (allCols : List (String × List String)) (sql err : String) :
    Option String :=
  match findNoSuchColumnGo err.data.length err.data with
  | none => none
  | some rawTok =>
    let missingCol := String.mk ((rawTok.splitOn '.').getLastD rawTok)
    match assocGet columnSynonyms (pyLower missingCol) with
    | some syn => some (replaceIdentifiers [(missingCol, syn)] sql)
    | none =>
      let tables := extractTables sql
      let fromTables := tables.foldl (fun a t => setUnion a (cols t)) []
      let allColsSet :=
        if fromTables.isEmpty then
          allCols.foldl (fun a p => setUnion a p.2) []
        else fromTables
      match closeMatch1 missingCol allColsSet 7 10 with
      | some best => some (replaceIdentifiers [(missingCol, best)] sql)
      | none =>
        if ["date", "billing_date", "date_id"].contains (pyLower missingCol)
            && allColsSet.contains "date_key" then
          some (replaceIdentifiers [(missingCol, "date_key")] sql)
        else none

/-- The method as composed in the agent: introspection goes through the
database layer (`execute_query`). -/
def tryFixMissingColumn (raw : RawEngine) (sql err : String) : Option String :=
  tryFixMissingColumnWith (getTableColumns raw) (getAllColumns raw) sql err

/-! ### `SQLAgent._nl_intent` and `_build_sql_for_intent` -/

inductive Intent where
  | countClients
  | listClients
  | listProducts
  | topProducts
  | revenueQuarter (year : Int) (quarter : Nat)
  | revenueYear (year : Int)
deriving DecidableEq

/-- The tag interpolated into `query_source = f"intent:{intent}"`. -/
def intentTag : Intent → String
  | .countClients => "count_clients"
  | .listClients => "list_clients"
  | .listProducts => "list_products"
  | .topProducts => "top_products"
  | .revenueQuarter _ _ => "revenue_quarter"
  | .revenueYear _ => "revenue_year"

/-- Generic `re.search` driver: scan for a word-boundary position where
the position predicate matches. -/
def searchAtBoundary (p : List Char → Bool) : Nat → Bool → List Char → Bool
  | 0, _, _ => false
  | _ + 1, _, [] => false
  | fuel + 1, prevW, c :: cs =>
    if !prevW && p (c :: cs) then true
    else searchAtBoundary p fuel (pyWordChar c) cs

def searchB (p : List Char → Bool) (s : List Char) : Bool :=
  searchAtBoundary p s.length false s

/-- `(alt₁|…)\s+(alt₂|…)\b` at the current position. -/
def matchAltWsAlt (alts1 alts2 : List String) (s : List Char) : Bool :=
  alts1.any fun a1 =>
    match splitCaseless a1.data s with
    | some (_, r) =>
      match takeWs1 r with
      | some r2 => (tryAlts (alts2.map String.data) r2).isSome
      | none => false
    | none => false

/-- `.*\bclientes?\b` continuation of the list-clients pattern: `.` does
not cross a newline, so a word-bounded `cliente(s)` must start before the
next newline. -/
def scanForClientes : Nat → Bool → List Char → Bool
  | 0, _, _ => false
  | _ + 1, _, [] => false
  | fuel + 1, prevW, c :: cs =>
    if !prevW && (tryAlts ["clientes".data, "cliente".data] (c :: cs)).isSome
    then true
    else if c == '\n' then false
    else scanForClientes fuel (pyWordChar c) cs

/-- `\b(quem|quais|lista(r)?)\b.*\bclientes?\b` at the current position. -/
def matchListClients (s : List Char) : Bool :=
  match tryAlts ["quem".data, "quais".data, "listar".data, "lista".data] s with
  | some (_, rest) => scanForClientes rest.length true rest
  | none => false

/-- `\b(mais\s+(compram|comprados|vendidos)|top|ranking)\b`. -/
def matchTopRanking (s : List Char) : Bool :=
  matchAltWsAlt ["mais"] ["compram", "comprados", "vendidos"] s ||
  (tryAlts ["top".data, "ranking".data] s).isSome

/-- `\b(últim[oa]|ultimo|passad[oa])\s+trimest` (no trailing boundary). -/
def matchLastQuarterWords (s : List Char) : Bool :=
  ["último", "última", "ultimo", "passado", "passada"].any fun a1 =>
    match splitCaseless a1.data s with
    | some (_, r) =>
      match takeWs1 r with
      | some r2 => (splitCaseless "trimest".data r2).isSome
      | none => false
    | none => false

/-- `re.search(r"\b(20\d{2})\b", t)`: the first captured year. -/
def findYearGo : Nat → Bool → List Char → Option Nat
  | 0, _, _ => none
  | _ + 1, _, [] => none
  | fuel + 1, prevW, c :: cs =>
    (if !prevW then
      match c :: cs with
      | '2' :: '0' :: d1 :: d2 :: rest =>
        if d1.isDigit && d2.isDigit && headNotPyWord rest then
          some (2000 + 10 * (d1.toNat - 48) + (d2.toNat - 48))
        else none
      | _ => none
    else none).orElse
    (fun _ => findYearGo fuel (pyWordChar c) cs)

/-- `SQLAgent._nl_intent`; `today` is `(year, month)` of `date.today()`. -/
def nlIntent (today : Int × Nat) (text : String) : Option Intent :=
  let t := String.mk (stripL (lowerL text.data))
  let td := t.data
  if searchB (matchAltWsAlt ["quantos", "qnt", "qtde"] ["clientes", "cliente"]) td
      || ["clientes", "n clientes", "total clientes"].contains t then
    some .countClients
  else if searchB matchListClients td then some .listClients
  else if searchAlts ["produtos", "produto"] t then
    (if searchB matchTopRanking td then some .topProducts
     else some .listProducts)
  else if searchB matchLastQuarterWords td then
    let yq := lastCompletedQuarter today.1 today.2
    some (.revenueQuarter yq.1 yq.2)
  else
    let hasRevenueWord := strContains "receita" t || strContains "faturamento" t
    let yearMatch := findYearGo td.length false td
    if hasRevenueWord && yearMatch.isSome then
      some (.revenueYear (Int.ofNat (yearMatch.getD 0)))
    else if hasRevenueWord &&
        searchB (matchAltWsAlt ["este", "atual", "corrente"] ["ano"]) td then
      some (.revenueYear today.1)
    else none

/-- `SQLAgent._build_sql_for_intent` (deterministic templates; the only
interpolations are the validated integers). -/
def buildSqlForIntent : Intent → Option String
  | .countClients => some "SELECT COUNT(*) AS total_clientes FROM dw_dim_client"
  | .listClients =>
    some "SELECT DISTINCT client_name FROM dw_dim_client ORDER BY client_name LIMIT 100"
  | .listProducts =>
    some ("SELECT DISTINCT dp.project_name AS product_name " ++
      "FROM dw_dim_project dp " ++
      "WHERE dp.project_name IS NOT NULL " ++
      "ORDER BY dp.project_name " ++
      "LIMIT 100")
  | .topProducts =>
    some ("SELECT dp.project_name AS product_name, " ++
      "       ROUND(SUM(fb.amount), 2) AS total_amount " ++
      "FROM dw_fact_billing fb " ++
      "JOIN dw_dim_project dp ON dp.project_key = fb.project_key " ++
      "GROUP BY dp.project_name " ++
      "HAVING dp.project_name IS NOT NULL " ++
      "ORDER BY total_amount DESC " ++
      "LIMIT 10")
  | .revenueQuarter y q =>
    some ("SELECT dd.year, dd.quarter, " ++
      "       ROUND(SUM(fb.amount), 2) AS receita_total " ++
      "FROM dw_fact_billing fb " ++
      "JOIN dw_dim_date dd ON dd.date_key = fb.date_key " ++
      "WHERE dd.year = " ++ toString y ++ " AND dd.quarter = " ++ toString q ++
      " " ++
      "GROUP BY dd.year, dd.quarter " ++
      "ORDER BY dd.year, dd.quarter")
  | .revenueYear y =>
    some ("SELECT dd.year, " ++
      "       ROUND(SUM(fb.amount), 2) AS receita_total " ++
      "FROM dw_fact_billing fb " ++
      "JOIN dw_dim_date dd ON dd.date_key = fb.date_key " ++
      "WHERE dd.year = " ++ toString y ++ " " ++
      "GROUP BY dd.year " ++
      "ORDER BY dd.year")

/-! ### `SQLAgent.check_predefined_queries` and `PREDEFINED_QUERIES` -/

def queryMappings : List (String × List String) :=
  [("receita_mensal", ["receita mensal", "faturamento mensal", "receita por mês"]),
   ("top_clientes",
      ["top clientes", "melhores clientes", "maiores clientes", "ranking clientes"]),
   ("utilizacao_recursos",
      ["utilização", "utilização recursos", "horas trabalhadas", "capacidade"]),
   ("sla_tickets", ["sla", "tickets", "sla tickets", "performance tickets"])]

def checkPredefinedQueries (userInput : String) : Option String :=
  let ul := pyLower userInput
  (queryMappings.find? (fun m => m.2.any (fun kw => strContains kw ul))).map (·.1)

/-- `PREDEFINED_QUERIES` from `src/utils/database_query.py` (the
triple-quoted strings begin and end with a newline). -/
def predefinedQueries : List (String × String) :=
  [("receita_mensal",
    "\nWITH bill AS (\n  SELECT\n    dd.year        AS year,\n    dd.month       AS month,\n    dc.code        AS currency,\n    SUM(fb.amount) AS amount,\n    SUM(fb.tax)    AS tax\n  FROM dw_fact_billing fb\n  JOIN dw_dim_date     dd ON dd.date_key = fb.date_key\n  JOIN dw_dim_currency dc ON dc.currency_key = fb.currency_key\n  GROUP BY dd.year, dd.month, dc.code\n)\nSELECT\n  b.year,\n  b.month,\n  b.currency,\n  b.amount,\n  b.tax,\n  ROUND(b.amount * oc.rate_to_usd, 2) AS amount_usd,\n  ROUND(b.tax    * oc.rate_to_usd, 2) AS tax_usd\nFROM bill b\nJOIN oltp_currencies oc ON oc.code = b.currency\nORDER BY b.year, b.month, b.currency\n"),
   ("top_clientes",
    "\nSELECT \n    dc.client_name,\n    SUM(fb.amount) as amount\nFROM dw_fact_billing fb\nJOIN dw_dim_client dc ON fb.client_key = dc.client_key\nGROUP BY dc.client_name\nORDER BY amount DESC\nLIMIT 10\n"),
   ("utilizacao_recursos",
    "\nSELECT \n    dd.year, dd.month,\n    SUM(ft.hours) as horas,\n    COUNT(DISTINCT de.employee_id) as empregados_ativos,\n    COUNT(DISTINCT de.employee_id) * 168 as capacidade_horas,\n    ROUND((SUM(ft.hours) * 100.0) / (COUNT(DISTINCT de.employee_id) * 168), 2) as utilizacao_pct\nFROM dw_fact_timesheet ft\nJOIN dw_dim_date dd ON ft.date_key = dd.date_key\nJOIN dw_dim_employee de ON ft.employee_key = de.employee_key\nGROUP BY dd.year, dd.month\nORDER BY dd.year, dd.month\n"),
   ("sla_tickets",
    "\nSELECT \n    dt.priority,\n    COUNT(*) as qtd,\n    SUM(CASE WHEN ft.sla_met = 1 THEN 1 ELSE 0 END) as dentro_sla,\n    ROUND((SUM(CASE WHEN ft.sla_met = 1 THEN 1 ELSE 0 END) * 100.0) / COUNT(*), 2) as pct_sla\nFROM dw_fact_ticket ft\nJOIN dw_dim_ticket dt ON ft.ticket_key = dt.ticket_key\nGROUP BY dt.priority\nORDER BY dt.priority\n")]

/-! ### `AIOrchestrator.classify_query` -/

def sqlKeywords : List String :=
  ["quantos", "quanto", "qual", "quais", "total", "soma", "média", "máximo",
   "mínimo", "receita", "faturamento", "vendas", "clientes", "projetos",
   "funcionários", "empregados", "tickets", "sla", "horas", "utilização",
   "performance", "relatório", "dados", "número", "valor", "custo", "lucro",
   "margem", "crescimento", "tendência", "comparar", "comparação", "ranking",
   "top", "melhor", "pior", "maior", "menor"]

def ragKeywords : List String :=
  ["como", "por que", "porque", "explique", "explicar", "definir",
   "definição", "conceito", "significado", "diferença", "vantagem",
   "desvantagem", "benefício", "processo", "metodologia", "estratégia",
   "análise", "interpretação", "insight"]

def sqlScoreOf (userInput : String) : Nat :=
  (sqlKeywords.filter (fun k => strContains k (pyLower userInput))).length

def ragScoreOf (userInput : String) : Nat :=
  (ragKeywords.filter (fun k => strContains k (pyLower userInput))).length

def tableMentionsOf (tables : List String) (userInput : String) : Nat :=
  (tables.filter (fun t => strContains (pyLower t) (pyLower userInput))).length

/-- The keyword fallback of `classify_query`
(`if table_mentions > 0 or sql_score > rag_score: 'sql' …`). -/
def classifyFallback (tables : List String) (userInput : String) : String :=
  if 0 < tableMentionsOf tables userInput ∨
      ragScoreOf userInput < sqlScoreOf userInput then "sql"
  else if 0 < ragScoreOf userInput then "rag"
  else "general"

/-- `AIOrchestrator.classify_query`: `learned` is what the
learned-classification collaborator returned (`None` or a label; an empty
label is falsy and falls through); `tables` is `self.db.get_all_tables()`. -/
def classifyQuery (learned : Option String) (tables : List String)
    (userInput : String) : String :=
  match learned with
  | some c => if c == "" then classifyFallback tables userInput else c
  | none => classifyFallback tables userInput

/-! ### Prompts, generation and the natural-language answer -/

/-- The generative collaborator (`ollama`): availability flag and the
chat call, which may itself raise. -/
structure LLMOracle where
  ollamaOk : Bool
  chat : String → Except String String

/-- One entry of `chat_history`. -/
structure ChatMsg where
  role : String
  content : String
  sqlQuery : Option String

/-- `SQLAgent._dynamic_schema_overview`. -/
def dynamicSchemaOverview (raw : RawEngine) : String :=
  let tables := getAvailableTables raw
  if tables.isEmpty then ""
  else
    String.intercalate "\n"
      ("SCHEMA DISPONÍVEL (extraído do SQLite):" ::
        tables.map (fun t =>
          let cs := getTableColumns raw t
          if cs != [] then
            "- " ++ t ++ ": " ++ String.intercalate ", " (cs.take 12) ++
              (if cs.length > 12 then "..." else "")
          else "- " ++ t))

/-- `SQLAgent.get_database_schema`. -/
def getDatabaseSchema (raw : RawEngine) : String :=
  let dwHint := "IMPORTANTE: Use as tabelas DW (Data Warehouse) para análises e relatórios, pois elas são otimizadas para consultas analíticas."
  let overview := dynamicSchemaOverview raw
  if overview != "" then overview ++ "\n\n" ++ dwHint
  else "SCHEMA DO BANCO DE DADOS: consulte as tabelas dw_* e oltp_* no SQLite."

/-- The conversation context block of `generate_sql_query`. -/
def buildGenContext (hist : List ChatMsg) : String :=
  if hist.isEmpty then ""
  else
    let recent := hist.drop (hist.length - 3)
    "Contexto da conversa anterior:\n" ++
      recent.foldl
        (fun acc m =>
          if m.role == "user" then acc ++ "Usuário: " ++ m.content ++ "\n"
          else
            match m.sqlQuery with
            | some q => if q != "" then acc ++ "Query anterior: " ++ q ++ "\n" else acc
            | none => acc)
        "" ++ "\n"

def genPrompt (schema context userInput : String) : String :=
  "Você é um especialista em SQL e análise de dados. Gere UMA ÚNICA query SQL válida para a pergunta do usuário.\n\n"
  ++ schema ++ "\n\n" ++ context ++ "PERGUNTA DO USUÁRIO: " ++ userInput ++
  "\n\nINSTRUÇÕES (OBRIGATÓRIAS):\n- Responda com APENAS 1 statement SQL (SELECT ou WITH). Nenhum texto antes/depois.\n- NÃO use múltiplos statements.\n- Use as tabelas DW (Data Warehouse) sempre que possível.\n- Para datas, use dw_fact_billing.date_key e faça JOIN com dw_dim_date.\n- Para clientes/projetos, use chaves *_key (ex.: client_key, project_key).\n- Use agregações (SUM, COUNT, AVG) quando apropriado.\n- LIMIT máx. 100 quando fizer sentido.\n- Termine sem ponto-e-vírgula.\n"

/-- `SQLAgent.generate_sql_query`: raises when Ollama is unavailable,
propagates `chat` failures, cleans the response otherwise. -/
def generateSqlQuery (raw : RawEngine) (oc : LLMOracle) (userInput : String)
    (hist : List ChatMsg) : Except String String :=
  if !oc.ollamaOk then
    .error "Ollama não está disponível. Instale/configure o Ollama ou use intents/queries pré-definidas."
  else
    match oc.chat (genPrompt (getDatabaseSchema raw) (buildGenContext hist) userInput) with
    | .error e => .error e
    | .ok resp => .ok (cleanSqlResponse (pyStrip resp))

def fixPrompt (sql err schema : String) : String :=
  "A query abaixo falhou:\n\n" ++ sql ++ "\n\nERRO: " ++ err ++
  "\n\nCom base no schema a seguir, gere UMA ÚNICA query SQL corrigida, mantendo o objetivo. Apenas o SQL, sem explicações.\n\n"
  ++ schema ++ "\n\nSQL:"

/-- `SQLAgent._fix_sql_query`: `None` when Ollama is unavailable or the
chat call raises. -/
def fixSqlQuery (raw : RawEngine) (oc : LLMOracle) (sql err : String) :
    Option String :=
  if !oc.ollamaOk then none
  else
    match oc.chat (fixPrompt sql err (getDatabaseSchema raw)) with
    | .ok r => some (cleanSqlResponse (pyStrip r))
    | .error _ => none

/-- Rendering of a row list in the f-string prompts (models the Python
`repr` of a list of dicts; no theorem inspects this text). -/
def showRows (rs : List Row) : String :=
  "[" ++ String.intercalate ", "
    (rs.map (fun r =>
      "\x7b" ++ String.intercalate ", "
        (r.map (fun p => p.1 ++ ": " ++ p.2.display)) ++ "\x7d"))
  ++ "]"

/-- `f"{v:,.2f}"` for the integer values the embedding carries: digit
grouping plus two decimal places. -/
def fmtMoney : SQLVal → String
  | .intV i =>
    let sign := if i < 0 then "-" else ""
    let digits := (toString i.natAbs).data
    let grouped :=
      ((digits.reverse.enum.map
        (fun p => if p.1 % 3 == 2 && p.1 + 1 != digits.length
          then [p.2, ','] else [p.2])).flatten).reverse
    sign ++ String.mk grouped ++ ".00"
  | v => v.display

def respPrompt (userInput sql : String) (results : List Row) : String :=
  "Baseado nos resultados da consulta SQL, gere uma resposta clara e informativa em português.\n\nPERGUNTA DO USUÁRIO: "
  ++ userInput ++ "\n\nQUERY EXECUTADA: " ++ sql ++ "\n\nRESULTADOS (" ++
  toString results.length ++ " registros):\n" ++ showRows (results.take 10) ++
  "\n\nINSTRUÇÕES:\n1. Responda em português brasileiro.\n2. Seja claro e objetivo.\n3. Destaque os principais insights dos dados.\n4. Se houver muitos resultados, mencione que está mostrando apenas os principais.\n5. Use formatação adequada para números (vírgulas para milhares, etc.).\n6. Seja profissional mas acessível.\n\nRESPOSTA:"

/-- `SQLAgent._generate_response_text`. -/
def generateResponseText (oc : LLMOracle) (userInput : String)
    (results : List Row) (columns : List String) (sql : String) : String :=
  if results.isEmpty then "Não foram encontrados dados para sua consulta."
  else
    let fallbackMsg :=
      "Encontrei " ++ toString results.length ++
        " registros. Principais linhas: " ++ showRows (results.take 10)
    if !oc.ollamaOk then
      if results.length == 1 && !columns.isEmpty &&
          (strPrefix "total" (columns.headD "") ||
            strContains "receita" (pyLower (String.intercalate " " columns))) then
        -- `isinstance(v, (int, float))`: the embedding carries integers
        let vals :=
          columns.filterMap (fun c =>
            match rowGet (results.headD []) c with
            | some (SQLVal.intV i) => some (SQLVal.intV i)
            | _ => none)
        match vals with
        | v :: _ =>
          "Encontrei " ++ toString results.length ++ " registro(s). Valor: " ++
            fmtMoney v ++ "."
        | [] => fallbackMsg
      else fallbackMsg
    else
      match oc.chat (respPrompt userInput sql results) with
      | .ok c => c
      | .error _ => fallbackMsg

/-! ### `SQLAgent.process_query` -/

/-- Observable events of one `process_query` run: executions of the
candidate SQL (`self.db.execute_query(sql_query)` in `process_query`),
invocations of the generative collaborator for generation (`genCall`) and
for correction (`fixCall`), and invocations of the missing-table heuristic
`_map_table_alias` (`fuzzyLookup`). -/
inductive AgentEv where
  | execQ (sql : String)
  | genCall
  | fixCall
  | fuzzyLookup
deriving DecidableEq

def AgentEv.isExec : AgentEv → Bool
  | .execQ _ => true
  | _ => false

def AgentEv.isFix : AgentEv → Bool
  | .fixCall => true
  | _ => false

def AgentEv.isFuzzy : AgentEv → Bool
  | .fuzzyLookup => true
  | _ => false

/-- The result mapping `process_query` returns (`metadata` carries either
`query_source`/`row_count` or `error`). -/
structure PQResult where
  response : String
  sqlQuery : Option String
  results : List Row
  columns : List String
  querySource : Option String
  rowCount : Option Nat
  errorMeta : Option String
deriving DecidableEq

structure PQOut where
  result : PQResult
  events : List AgentEv
  learned : List (String × String)
deriving DecidableEq

/-- The structured failure of the outer `except` handler:
`locals().get("sql_query")` is the last value bound to `sql_query`. -/
def pqFailure (e : String) (lastSql : Option String) : PQResult :=
  { response := "Desculpe, ocorreu um erro ao executar a consulta SQL: " ++ e
    sqlQuery := lastSql
    results := []
    columns := []
    querySource := none
    rowCount := none
    errorMeta := some e }

/-- How `sql_query` renders inside an f-string when it is `None`. -/
def renderOptSql : Option String → String
  | some s => s
  | none => "None"

def pqSuccess (oc : LLMOracle) (userInput : String) (results : List Row)
    (columns : List String) (sqlQuery : Option String) (querySource : String) :
    PQResult :=
  { response := generateResponseText oc userInput results columns (renderOptSql sqlQuery)
    sqlQuery := sqlQuery
    results := results
    columns := columns
    querySource := some querySource
    rowCount := some results.length
    errorMeta := none }

/-- Executing the current `sql_query`: a `None` statement raises sqlite's
parameter `TypeError`, wrapped by `execute_query`'s handler. -/
def execOpt (raw : RawEngine) : Option String → Except String (List Row × List String)
  | some s => executeQuery raw s
  | none => .error "Erro ao executar query: operation parameter must be str"

def pqFinish (oc : LLMOracle) (userInput querySource : String)
    (results : List Row) (columns : List String) (sqlQ : Option String)
    (evs : List AgentEv) (lrn : List (String × String)) : PQOut :=
  ⟨pqSuccess oc userInput results columns sqlQ querySource, evs, lrn⟩

def pqFail (e : String) (lastSql : Option String) (evs : List AgentEv)
    (lrn : List (String × String)) : PQOut :=
  ⟨pqFailure e lastSql, evs, lrn⟩

/-- The final execution of a substituted/corrected query: succeed, or let
the failure reach the outer handler with `sql_query` bound to it. -/
def pqExecFinal (raw : RawEngine) (oc : LLMOracle)
    (userInput querySource sql2 : String) (evs4 : List AgentEv)
    (lrn : List (String × String)) : PQOut :=
  match executeQuery raw sql2 with
  | .ok (r, cl) => pqFinish oc userInput querySource r cl (some sql2) evs4 lrn
  | .error e2 => pqFail e2 (some sql2) evs4 lrn

/-- A corrected query is revalidated and executed once; a failure there
reaches the outer handler. -/
def pqRetryValidated (raw : RawEngine) (oc : LLMOracle)
    (userInput querySource : String) (c : String) (evs : List AgentEv)
    (lrn : List (String × String)) : PQOut :=
  let vo := validateAndAutocorrectSql raw lrn c
  pqExecFinal raw oc userInput querySource vo.sql
    (evs ++ (if vo.fuzzyUsed then [AgentEv.fuzzyLookup] else []) ++
      [AgentEv.execQ vo.sql])
    vo.learned

/-- The generative-correction fallback shared by the recovery branches:
`_fix_sql_query`, then revalidate-and-retry when it produced something,
else re-raise the original error. -/
def pqGenericFix (raw : RawEngine) (oc : LLMOracle)
    (userInput querySource : String) (sqlS : String) (e : String)
    (sqlOpt1 : Option String) (evs : List AgentEv)
    (lrn : List (String × String)) : PQOut :=
  match fixSqlQuery raw oc sqlS e with
  | some c =>
    if c != "" then
      pqRetryValidated raw oc userInput querySource c (evs ++ [AgentEv.fixCall]) lrn
    else pqFail e sqlOpt1 (evs ++ [AgentEv.fixCall]) lrn
  | none => pqFail e sqlOpt1 (evs ++ [AgentEv.fixCall]) lrn

/-- The `except` block of step 4: one bounded recovery, keyed on the error
text. -/
def pqRecover (raw : RawEngine) (oc : LLMOracle)
    (userInput querySource : String) (sqlOpt1 : Option String)
    (learned1 : List (String × String)) (evs2 : List AgentEv) (e : String) :
    PQOut :=
  -- `err` is `str(e).lower()`; on every reachable path below `sql_query`
  -- is a string; a `None` value only produces the parameter TypeError,
  -- whose text matches no recovery keyword, so it takes the generic
  -- branch (where the prompt renders it as `None`)
  if strContains "no such table" (pyLower e) then
    match findNoSuchTableGo (pyLower e).data.length (pyLower e).data with
    | some mt =>
      match mapTableAlias learned1 (String.mk mt) (getAvailableTables raw) with
      | some target =>
        pqExecFinal raw oc userInput querySource
          (replaceIdentifiers [(String.mk mt, target)] (renderOptSql sqlOpt1))
          (evs2 ++ [AgentEv.fuzzyLookup] ++
            [AgentEv.execQ (replaceIdentifiers [(String.mk mt, target)]
              (renderOptSql sqlOpt1))])
          (learnAlias learned1 (String.mk mt) target)
      | none =>
        pqGenericFix raw oc userInput querySource (renderOptSql sqlOpt1) e
          sqlOpt1 (evs2 ++ [AgentEv.fuzzyLookup]) learned1
    | none =>
      -- the branch binds no `results`; the later response line raises
      -- `NameError`, which the outer handler turns into a failure
      pqFail "name 'results' is not defined" sqlOpt1 evs2 learned1
  else if strContains "no such column" (pyLower e) then
    match tryFixMissingColumn raw (renderOptSql sqlOpt1) e with
    | some f =>
      if f != "" then pqRetryValidated raw oc userInput querySource f evs2 learned1
      else pqGenericFix raw oc userInput querySource (renderOptSql sqlOpt1) e
        sqlOpt1 evs2 learned1
    | none =>
      pqGenericFix raw oc userInput querySource (renderOptSql sqlOpt1) e
        sqlOpt1 evs2 learned1
  else if strContains "only execute one statement" (pyLower e) then
    pqExecFinal raw oc userInput querySource
      (ensureSingleStatement (renderOptSql sqlOpt1))
      (evs2 ++ [AgentEv.execQ (ensureSingleStatement (renderOptSql sqlOpt1))])
      learned1
  else
    pqGenericFix raw oc userInput querySource (renderOptSql sqlOpt1) e sqlOpt1
      evs2 learned1

/-- Steps 0–2 of `process_query`: deterministic intent, predefined
queries, LLM generation.  An exception here reaches the outer handler with
`sql_query` still unbound. -/
def pqGenPath (raw : RawEngine) (oc : LLMOracle) (userInput : String)
    (hist : List ChatMsg) :
    Except (String × List AgentEv) (Option String × String × List AgentEv) :=
  match generateSqlQuery raw oc userInput hist with
  | .error e => .error (e, [AgentEv.genCall])
  | .ok s => .ok (some s, "generated", [AgentEv.genCall])

def pqStage1 (raw : RawEngine) (oc : LLMOracle) (today : Int × Nat)
    (userInput : String) (hist : List ChatMsg) :
    Except (String × List AgentEv) (Option String × String × List AgentEv) :=
  match nlIntent today userInput with
  | some i => .ok (buildSqlForIntent i, "intent:" ++ intentTag i, [])
  | none =>
    match checkPredefinedQueries userInput with
    | some name =>
      match assocGet predefinedQueries name with
      | some q => .ok (some q, "predefined", [])
      | none => pqGenPath raw oc userInput hist
    | none => pqGenPath raw oc userInput hist

/-- Step 4 of `process_query`: execute the validated `sql_query`, and on
failure enter the recovery state machine. -/
def pqExecute (raw : RawEngine) (oc : LLMOracle)
    (userInput querySource : String) (sqlOpt1 : Option String)
    (learned1 : List (String × String)) (evsPre : List AgentEv) : PQOut :=
  match execOpt raw sqlOpt1 with
  | .ok (results, columns) =>
    pqFinish oc userInput querySource results columns sqlOpt1
      (evsPre ++ [AgentEv.execQ (renderOptSql sqlOpt1)]) learned1
  | .error e =>
    pqRecover raw oc userInput querySource sqlOpt1 learned1
      (evsPre ++ [AgentEv.execQ (renderOptSql sqlOpt1)]) e

/-- `SQLAgent.process_query`.  `today` feeds `_nl_intent`; `learned0` is
the persisted alias map at entry; the returned events record the run in
chronological order.  Step 3 (validation) sits between the stages:
`sql_query = self._validate_and_autocorrect_sql(sql_query)` (the identity
on a `None` query). -/
def processQuery (raw : RawEngine) (oc : LLMOracle) (today : Int × Nat)
    (learned0 : List (String × String)) (userInput : String)
    (hist : List ChatMsg) : PQOut :=
  match pqStage1 raw oc today userInput hist with
  | .error (e, evs) => ⟨pqFailure e none, evs, learned0⟩
  | .ok (none, querySource, evs0) =>
    pqExecute raw oc userInput querySource none learned0 evs0
  | .ok (some s0, querySource, evs0) =>
    pqExecute raw oc userInput querySource
      (some (validateAndAutocorrectSql raw learned0 s0).sql)
      (validateAndAutocorrectSql raw learned0 s0).learned
      (evs0 ++ (if (validateAndAutocorrectSql raw learned0 s0).fuzzyUsed then
        [AgentEv.fuzzyLookup] else []))

/-! ## Theorems -/

/-- C1: the schema introspector never returns the column list of any
table.  `execute_query` only fetches rows for statements whose stripped
upper-cased text starts with `SELECT`/`WITH`; a `PRAGMA table_info` query
therefore returns `([], [])` even though the engine produced the column
rows, so `_get_table_columns` yields `[]` for every table of the seeded
database — while the live schema records eleven columns for
`dw_dim_date`.  (The empty-database half of the claim does hold: the
introspection calls return `[]` and are total.)  This contradicts the
code's own intent: `_get_table_columns` parses a `name` field out of rows
that the wrapper has already discarded. -/
theorem c1_pragma_rows_discarded :
    getTableColumns (sqliteModel demoSchema) "dw_dim_date" = [] ∧
    schemaLookup demoSchema "dw_dim_date" =
      some ["date_key", "date_iso", "day", "month", "month_name", "quarter",
        "year", "week_of_year", "weekday", "weekday_name", "is_weekend"] ∧
    (sqliteModel demoSchema (pragmaQueryFor "dw_dim_date") =
      .ok (pragmaRows ["date_key", "date_iso", "day", "month", "month_name",
        "quarter", "year", "week_of_year", "weekday", "weekday_name",
        "is_weekend"], ["cid", "name"])) ∧
    demoSchema.all
      (fun t => getTableColumns (sqliteModel demoSchema) t.name == []) = true ∧
    getTableColumns (sqliteModel []) "dw_dim_client" = [] ∧
    getAvailableTables (sqliteModel []) = [] := by
  refine ⟨by decide, by decide, by rfl, by decide, by decide, by decide⟩

/-- C4 counterexample: the claim's own example column fails.
`start_date_key` is a canonical column of `dw_dim_project`, yet it is a
key of `_COLUMN_SYNONYMS` mapped to the different name `date_key` (which
is not even a column of `dw_dim_project`). -/
theorem c4_counterexample_start_date_key :
    "start_date_key" ∈ (schemaLookup demoSchema "dw_dim_project").getD [] ∧
    colSynApply "start_date_key" = "date_key" ∧
    "date_key" ≠ "start_date_key" ∧
    "date_key" ∉ (schemaLookup demoSchema "dw_dim_project").getD [] := by
  refine ⟨by decide, by decide, by decide, by decide⟩

/-- C4 (amended): applying the Column Synonym map to a canonical `dw_*`
column name is a no-op for every column except the six legacy/date columns
`client_id`, `employee_id`, `project_id`, `ticket_id`, `start_date_key`
and `end_date_key`, which the map does rewrite (in particular the
surrogate `*_key` columns and all measure columns are fixed points). -/
theorem c4_synonym_map_fixed_points :
    ∀ t, t ∈ dwTables → ∀ c, c ∈ t.cols →
      (c ∉ ["client_id", "employee_id", "project_id", "ticket_id",
            "start_date_key", "end_date_key"] → colSynApply c = c) ∧
      (c ∈ ["client_id", "employee_id", "project_id", "ticket_id",
            "start_date_key", "end_date_key"] → colSynApply c ≠ c) := by
  decide

theorem c4_synonym_map_fixed_points_witness :
    colSynApply "currency_key" = "currency_key" ∧
    colSynApply "client_id" ≠ "client_id" := by
  refine
    ⟨(c4_synonym_map_fixed_points ⟨"dw_dim_currency", ["currency_key", "code", "name"]⟩
        (by decide) "currency_key" (by decide)).1 (by decide),
     (c4_synonym_map_fixed_points
        ⟨"dw_dim_client", ["client_key", "client_id", "client_name", "industry",
          "size_segment", "country", "state", "city"]⟩
        (by decide) "client_id" (by decide)).2 (by decide)⟩

/-- C8: `_last_completed_quarter` returns the most recently finished
calendar quarter: in Q1 (months 1–3) it is Q4 of the previous year,
otherwise the preceding quarter `(month - 1) / 3` of the same year; in
particular February yields `(year - 1, 4)` and August yields `(year, 2)`. -/
theorem c8_last_completed_quarter (y : Int) (m : Nat) (h1 : 1 ≤ m)
    (h2 : m ≤ 12) :
    ((m ≤ 3 → lastCompletedQuarter y m = (y - 1, 4)) ∧
     (4 ≤ m → lastCompletedQuarter y m = (y, (m - 1) / 3))) ∧
    lastCompletedQuarter y 2 = (y - 1, 4) ∧
    lastCompletedQuarter y 8 = (y, 2) := by
  interval_cases m <;> simp [lastCompletedQuarter]

theorem c8_last_completed_quarter_witness :
    lastCompletedQuarter 2026 2 = (2025, 4) ∧
    lastCompletedQuarter 2026 8 = (2026, 2) := by
  exact ⟨(c8_last_completed_quarter 2026 2 (by decide) (by decide)).2.1,
    (c8_last_completed_quarter 2026 8 (by decide) (by decide)).2.2⟩

/-- If the scanner finds no ASCII-identifier-delimited occurrence of
`src`, the substitution scanner copies the text verbatim (the two walk the
text with identical steps). -/
theorem replaceIdentGo_of_no_occurrence (src dst : List Char) :
    ∀ (fuel : Nat) (prevW : Bool) (s : List Char),
      hasWholeWordGo src fuel prevW s = false →
      replaceIdentGo src dst fuel prevW s = s := by
  intro fuel
  induction fuel with
  | zero => intro prevW s _; rfl
  | succ n ih =>
    intro prevW s h
    cases s with
    | nil => rfl
    | cons c cs =>
      simp only [hasWholeWordGo] at h
      simp only [replaceIdentGo]
      cases hw : wordBoundedAt src prevW (c :: cs) with
      | some pr =>
        rw [hw] at h
        simp at h
      | none =>
        rw [hw] at h
        have h2 : hasWholeWordGo src n (asciiWordChar c) cs = false := h
        show c :: replaceIdentGo src dst n (asciiWordChar c) cs = c :: cs
        rw [ih _ _ h2]

/-- C10: identifier substitution only rewrites whole identifiers and does
so case-insensitively.  If a string has no occurrence of `src` delimited
by non-`[A-Za-z0-9_]` neighbours, then `_replace_identifiers` with the
mapping `src → dst` and the learned-alias pass with the entry
`(src, dst)` both leave the string unchanged — in particular an
identifier merely containing `src` as a proper substring is never
rewritten.  The closed instance shows a whole-word occurrence being
replaced while the embedded occurrence in the same string survives. -/
theorem c10_substitution_whole_identifiers_only :
    (∀ src dst s : String, hasWholeWord src s = false →
      replaceIdentifiers [(src, dst)] s = s ∧
      ∀ avail : List String, applyLearnedAliases [(src, dst)] avail s = s) ∧
    replaceIdentifiers [("client_id", "client_key")]
        "SELECT fb.CLIENT_ID, xclient_idy, client_idz FROM t" =
      "SELECT fb.client_key, xclient_idy, client_idz FROM t" := by
  constructor
  · intro src dst s h
    unfold hasWholeWord at h
    have hrep : replaceIdent src dst s = s := by
      unfold replaceIdent
      rw [replaceIdentGo_of_no_occurrence src.data dst.data _ _ _ h]
    constructor
    · unfold replaceIdentifiers
      simp only [List.foldl]
      split
      · rfl
      · exact hrep
    · intro avail
      unfold applyLearnedAliases
      simp only [List.foldl]
      split
      · exact hrep
      · rfl
  · decide

theorem c10_substitution_whole_identifiers_only_witness :
    replaceIdentifiers [("client_id", "client_key")]
        "SELECT xclient_idy FROM client_idx" =
      "SELECT xclient_idy FROM client_idx" ∧
    applyLearnedAliases [("tbl_x", "dw_fact_billing")] ["dw_fact_billing"]
        "SELECT a FROM tbl_xy" = "SELECT a FROM tbl_xy" := by
  exact
    ⟨(c10_substitution_whole_identifiers_only.1 "client_id" "client_key"
        "SELECT xclient_idy FROM client_idx" (by decide)).1,
     (c10_substitution_whole_identifiers_only.1 "tbl_x" "dw_fact_billing"
        "SELECT a FROM tbl_xy" (by decide)).2 ["dw_fact_billing"]⟩

/-- C2 counterexample: for the input `"como clientes"` the learned
collaborator yields nothing, the data score and concept score tie at one
apiece and no table is mentioned — yet `classify_query` returns `'rag'`,
not `'sql'`: the tie-break favours the conceptual path, contradicting the
claim. -/
theorem c2_counterexample_tie_goes_to_rag :
    sqlScoreOf "como clientes" = 1 ∧
    ragScoreOf "como clientes" = 1 ∧
    tableMentionsOf (sortedNames demoSchema) "como clientes" = 0 ∧
    classifyQuery none (sortedNames demoSchema) "como clientes" = "rag" ∧
    classifyQuery none (sortedNames demoSchema) "como clientes" ≠ "sql" := by
  refine ⟨by decide, by decide, by decide, by decide, by decide⟩

/-- C2 (amended): when the learned collaborator yields no result and the
keyword scores tie, `classify_query` returns `'sql'` only if a known
table name is mentioned; with no table mention a tie yields `'rag'` when
the concept score is positive and `'general'` otherwise.  Mentioning a
known table name does force `'sql'` unconditionally. -/
theorem c2_tie_break_and_table_mentions (tables : List String)
    (input : String) :
    (sqlScoreOf input = ragScoreOf input →
      tableMentionsOf tables input = 0 →
      classifyQuery none tables input =
        (if 0 < ragScoreOf input then "rag" else "general")) ∧
    (0 < tableMentionsOf tables input →
      classifyQuery none tables input = "sql") := by
  constructor
  · intro htie hmention
    show classifyFallback tables input = _
    unfold classifyFallback
    rw [if_neg (by omega)]
  · intro hmention
    show classifyFallback tables input = _
    unfold classifyFallback
    rw [if_pos (Or.inl hmention)]

theorem c2_tie_break_and_table_mentions_witness :
    classifyQuery none (sortedNames demoSchema) "como clientes" = "rag" ∧
    classifyQuery none (sortedNames demoSchema) "liste dw_fact_billing" = "sql" := by
  refine
    ⟨?_, (c2_tie_break_and_table_mentions (sortedNames demoSchema)
            "liste dw_fact_billing").2 (by decide)⟩
  have := (c2_tie_break_and_table_mentions (sortedNames demoSchema)
    "como clientes").1 (by decide) (by decide)
  rw [this]
  decide

set_option maxRecDepth 100000

/-- C3 counterexample: `_validate_and_autocorrect_sql` is not idempotent.
On this input (a query whose date-dimension alias collides with the
dottable column name `date_key`) the first pass rewrites `fb date` to
`fb.date_key`; the second pass then pairs the freshly exposed token
`date_key` with the following word `amount` and rewrites again, so
applying the normalizer twice differs from applying it once. -/
theorem c3_counterexample_not_idempotent :
    (validateAndAutocorrectSql (sqliteModel demoSchema) []
      ((validateAndAutocorrectSql (sqliteModel demoSchema) []
        "SELECT 1 FROM dw_fact_billing fb JOIN dw_dim_date date_key ON 1=1 WHERE q fb date amount = 2").sql)).sql ≠
    (validateAndAutocorrectSql (sqliteModel demoSchema) []
      "SELECT 1 FROM dw_fact_billing fb JOIN dw_dim_date date_key ON 1=1 WHERE q fb date amount = 2").sql := by
  decide

/-- C3 (amended): normalization is not idempotent in general, and
already-canonical schema-valid SQL is not always preserved: the raw
synonym pass rewrites the valid `dw_dim_project` column `start_date_key`
to `date_key` (which `dw_dim_project` does not have, so valid SQL becomes
invalid).  A single pass is the identity on canonical SQL free of the
synonym-shadowed columns and alias/column-name collisions (e.g.
`SELECT client_key FROM dw_dim_client`), and on the exhibited
counterexample the rewriting stabilizes from the second application on. -/
theorem c3_normalization_behaviour :
    (validateAndAutocorrectSql (sqliteModel demoSchema) []
      "SELECT client_key FROM dw_dim_client").sql =
      "SELECT client_key FROM dw_dim_client" ∧
    (validateAndAutocorrectSql (sqliteModel demoSchema) []
      "SELECT start_date_key FROM dw_dim_project").sql =
      "SELECT date_key FROM dw_dim_project" ∧
    "start_date_key" ∈ (schemaLookup demoSchema "dw_dim_project").getD [] ∧
    "date_key" ∉ (schemaLookup demoSchema "dw_dim_project").getD [] ∧
    (validateAndAutocorrectSql (sqliteModel demoSchema) []
      ((validateAndAutocorrectSql (sqliteModel demoSchema) []
        ((validateAndAutocorrectSql (sqliteModel demoSchema) []
          "SELECT 1 FROM dw_fact_billing fb JOIN dw_dim_date date_key ON 1=1 WHERE q fb date amount = 2").sql)).sql)).sql =
    (validateAndAutocorrectSql (sqliteModel demoSchema) []
      ((validateAndAutocorrectSql (sqliteModel demoSchema) []
        "SELECT 1 FROM dw_fact_billing fb JOIN dw_dim_date date_key ON 1=1 WHERE q fb date amount = 2").sql)).sql := by
  refine ⟨by decide, by decide, by decide, by decide, by decide⟩

/-- C5: the missing-column repair is implemented exactly as described —
strip the alias qualifier, direct synonym lookup, closest match at cutoff
0.7 over the referenced tables' columns (all tables' when none resolve),
then the date-like fallback — but the column collection goes through
`execute_query`, which discards `PRAGMA` rows, so the collected sets are
always empty: the approximate-match step and the date fallback can never
fire against the live database.  For `amont` (which fuzzy-matches the
real `dw_fact_billing` column `amount` at ratio 10/11 ≥ 0.7) the claim
predicts a substitution; the code returns `None` and falls back to
generative correction.  The same algorithm over a column source that
returns the live columns does produce the predicted repair, and the
introspection-independent synonym step still works. -/
theorem c5_missing_column_repair_starved :
    tryFixMissingColumn (sqliteModel demoSchema)
      "SELECT amont FROM dw_fact_billing"
      "Erro ao executar query: no such column: amont" = none ∧
    closeMatch1 "amont" ((schemaLookup demoSchema "dw_fact_billing").getD [])
      7 10 = some "amount" ∧
    tryFixMissingColumnWith (fun t => (schemaLookup demoSchema t).getD [])
      (demoSchema.map (fun t => (t.name, t.cols)))
      "SELECT amont FROM dw_fact_billing"
      "Erro ao executar query: no such column: amont" =
      some "SELECT amount FROM dw_fact_billing" ∧
    tryFixMissingColumn (sqliteModel demoSchema)
      "SELECT b.client_id FROM dw_fact_billing b"
      "Erro ao executar query: no such column: b.client_id" =
      some "SELECT b.client_key FROM dw_fact_billing b" ∧
    tryFixMissingColumn (sqliteModel demoSchema)
      "SELECT billing_datte FROM dw_fact_billing"
      "Erro ao executar query: no such column: billing_datte" = none := by
  refine ⟨by decide, by decide, by decide, by decide, by decide⟩

/-! ### Bookkeeping for the repair-loop bounds (C6, C7) -/

/-- Number of candidate-SQL executions recorded in a run. -/
def countExec (evs : List AgentEv) : Nat := (evs.filter AgentEv.isExec).length

/-- The SQL of the last execution event, if any. -/
def lastExecSql (evs : List AgentEv) : Option String :=
  evs.foldl (fun acc ev => match ev with | .execQ s => some s | _ => acc) none

theorem countExec_append (a b : List AgentEv) :
    countExec (a ++ b) = countExec a + countExec b := by
  simp [countExec, List.filter_append]

theorem countExec_fuzzyOpt (b : Bool) :
    countExec (if b then [AgentEv.fuzzyLookup] else []) = 0 := by
  cases b <;> rfl

theorem countExec_exec1 (s : String) : countExec [AgentEv.execQ s] = 1 := rfl

theorem countExec_fix1 : countExec [AgentEv.fixCall] = 0 := rfl

theorem countExec_fuzzy1 : countExec [AgentEv.fuzzyLookup] = 0 := rfl

theorem lastExecSql_append_exec (evs : List AgentEv) (s : String) :
    lastExecSql (evs ++ [AgentEv.execQ s]) = some s := by
  simp [lastExecSql, List.foldl_append]

theorem lastExecSql_append_fix (evs : List AgentEv) :
    lastExecSql (evs ++ [AgentEv.fixCall]) = lastExecSql evs := by
  simp [lastExecSql, List.foldl_append]

/-- The failure contract of the outer handler: either the run succeeded
(no error in the metadata) or the result is the polite structured failure
with empty rows and columns. -/
def failShape (r : PQResult) : Prop :=
  r.errorMeta = none ∨
  ∃ e, r.errorMeta = some e ∧
    r.response = "Desculpe, ocorreu um erro ao executar a consulta SQL: " ++ e ∧
    r.results = [] ∧ r.columns = []

/-- On failure, a non-null `sql_query` in the result is exactly the SQL of
the last execution attempt. -/
def lastSqlLink (out : PQOut) : Prop :=
  ∀ e s, out.result.errorMeta = some e → out.result.sqlQuery = some s →
    lastExecSql out.events = some s

theorem pqExecFinal_spec (raw : RawEngine) (oc : LLMOracle)
    (userInput querySource sql2 : String) (evs4 : List AgentEv)
    (lrn : List (String × String))
    (hlast : lastExecSql evs4 = some sql2) :
    countExec (pqExecFinal raw oc userInput querySource sql2 evs4 lrn).events =
      countExec evs4 ∧
    failShape (pqExecFinal raw oc userInput querySource sql2 evs4 lrn).result ∧
    lastSqlLink (pqExecFinal raw oc userInput querySource sql2 evs4 lrn) := by
  unfold pqExecFinal
  cases executeQuery raw sql2 with
  | ok p =>
    refine ⟨rfl, Or.inl rfl, ?_⟩
    intro e s he
    exact absurd he (by simp [pqFinish, pqSuccess])
  | error e2 =>
    refine ⟨rfl, Or.inr ⟨e2, rfl, rfl, rfl, rfl⟩, ?_⟩
    intro e s _ hs
    have hs2 : some sql2 = some s := hs
    rw [← hs2]
    exact hlast

theorem pqRetryValidated_spec (raw : RawEngine) (oc : LLMOracle)
    (userInput querySource c : String) (evs : List AgentEv)
    (lrn : List (String × String)) :
    countExec (pqRetryValidated raw oc userInput querySource c evs lrn).events =
      countExec evs + 1 ∧
    failShape (pqRetryValidated raw oc userInput querySource c evs lrn).result ∧
    lastSqlLink (pqRetryValidated raw oc userInput querySource c evs lrn) := by
  have h := pqExecFinal_spec raw oc userInput querySource
    (validateAndAutocorrectSql raw lrn c).sql
    (evs ++ (if (validateAndAutocorrectSql raw lrn c).fuzzyUsed then
        [AgentEv.fuzzyLookup] else []) ++
      [AgentEv.execQ (validateAndAutocorrectSql raw lrn c).sql])
    (validateAndAutocorrectSql raw lrn c).learned
    (lastExecSql_append_exec _ _)
  refine ⟨?_, h.2.1, h.2.2⟩
  have h1 := h.1
  rw [countExec_append, countExec_append, countExec_fuzzyOpt,
    countExec_exec1] at h1
  exact h1

theorem pqGenericFix_spec (raw : RawEngine) (oc : LLMOracle)
    (userInput querySource sqlS e : String) (sqlOpt1 : Option String)
    (evs : List AgentEv) (lrn : List (String × String))
    (hlink : ∀ s, sqlOpt1 = some s → lastExecSql evs = some s) :
    countExec (pqGenericFix raw oc userInput querySource sqlS e sqlOpt1 evs lrn).events ≤
      countExec evs + 1 ∧
    failShape (pqGenericFix raw oc userInput querySource sqlS e sqlOpt1 evs lrn).result ∧
    lastSqlLink (pqGenericFix raw oc userInput querySource sqlS e sqlOpt1 evs lrn) := by
  unfold pqGenericFix
  have hfailcase :
      countExec (pqFail e sqlOpt1 (evs ++ [AgentEv.fixCall]) lrn).events ≤
        countExec evs + 1 ∧
      failShape (pqFail e sqlOpt1 (evs ++ [AgentEv.fixCall]) lrn).result ∧
      lastSqlLink (pqFail e sqlOpt1 (evs ++ [AgentEv.fixCall]) lrn) := by
    refine ⟨?_, Or.inr ⟨e, rfl, rfl, rfl, rfl⟩, ?_⟩
    · show countExec (evs ++ [AgentEv.fixCall]) ≤ countExec evs + 1
      rw [countExec_append, countExec_fix1]
      omega
    · intro e0 s _ hs
      show lastExecSql (evs ++ [AgentEv.fixCall]) = some s
      rw [lastExecSql_append_fix]
      exact hlink s hs
  cases fixSqlQuery raw oc sqlS e with
  | none => exact hfailcase
  | some c =>
    dsimp only
    by_cases hc : (c != "") = true
    · rw [if_pos hc]
      have h := pqRetryValidated_spec raw oc userInput querySource c
        (evs ++ [AgentEv.fixCall]) lrn
      refine ⟨?_, h.2.1, h.2.2⟩
      rw [h.1, countExec_append, countExec_fix1]
    · rw [if_neg hc]
      exact hfailcase

theorem pqRecover_spec (raw : RawEngine) (oc : LLMOracle)
    (userInput querySource : String) (sqlOpt1 : Option String)
    (learned1 : List (String × String)) (evs2 : List AgentEv) (e : String)
    (hlink : ∀ s, sqlOpt1 = some s → lastExecSql evs2 = some s) :
    countExec (pqRecover raw oc userInput querySource sqlOpt1 learned1 evs2 e).events ≤
      countExec evs2 + 1 ∧
    failShape (pqRecover raw oc userInput querySource sqlOpt1 learned1 evs2 e).result ∧
    lastSqlLink (pqRecover raw oc userInput querySource sqlOpt1 learned1 evs2 e) := by
  have hlinkFz : ∀ s, sqlOpt1 = some s →
      lastExecSql (evs2 ++ [AgentEv.fuzzyLookup]) = some s := by
    intro s hs
    simp only [lastExecSql, List.foldl_append]
    exact hlink s hs
  have hretry2 : ∀ (sql2 : String) (lrn2 : List (String × String)),
      countExec (pqExecFinal raw oc userInput querySource sql2
        (evs2 ++ [AgentEv.fuzzyLookup] ++ [AgentEv.execQ sql2]) lrn2).events ≤
        countExec evs2 + 1 ∧
      failShape (pqExecFinal raw oc userInput querySource sql2
        (evs2 ++ [AgentEv.fuzzyLookup] ++ [AgentEv.execQ sql2]) lrn2).result ∧
      lastSqlLink (pqExecFinal raw oc userInput querySource sql2
        (evs2 ++ [AgentEv.fuzzyLookup] ++ [AgentEv.execQ sql2]) lrn2) := by
    intro sql2 lrn2
    have h := pqExecFinal_spec raw oc userInput querySource sql2
      (evs2 ++ [AgentEv.fuzzyLookup] ++ [AgentEv.execQ sql2]) lrn2
      (lastExecSql_append_exec _ _)
    refine ⟨?_, h.2.1, h.2.2⟩
    rw [h.1, countExec_append, countExec_append, countExec_fuzzy1,
      countExec_exec1]
  have hretry1 : ∀ (sql2 : String) (lrn2 : List (String × String)),
      countExec (pqExecFinal raw oc userInput querySource sql2
        (evs2 ++ [AgentEv.execQ sql2]) lrn2).events ≤ countExec evs2 + 1 ∧
      failShape (pqExecFinal raw oc userInput querySource sql2
        (evs2 ++ [AgentEv.execQ sql2]) lrn2).result ∧
      lastSqlLink (pqExecFinal raw oc userInput querySource sql2
        (evs2 ++ [AgentEv.execQ sql2]) lrn2) := by
    intro sql2 lrn2
    have h := pqExecFinal_spec raw oc userInput querySource sql2
      (evs2 ++ [AgentEv.execQ sql2]) lrn2 (lastExecSql_append_exec _ _)
    refine ⟨?_, h.2.1, h.2.2⟩
    rw [h.1, countExec_append, countExec_exec1]
  have hgenFz := pqGenericFix_spec raw oc userInput querySource
    (renderOptSql sqlOpt1) e sqlOpt1 (evs2 ++ [AgentEv.fuzzyLookup])
    learned1 hlinkFz
  have hgenFz2 : countExec (pqGenericFix raw oc userInput querySource
      (renderOptSql sqlOpt1) e sqlOpt1 (evs2 ++ [AgentEv.fuzzyLookup])
      learned1).events ≤ countExec evs2 + 1 := by
    calc _ ≤ countExec (evs2 ++ [AgentEv.fuzzyLookup]) + 1 := hgenFz.1
    _ = countExec evs2 + 1 := by rw [countExec_append, countExec_fuzzy1]
  have hgen := pqGenericFix_spec raw oc userInput querySource
    (renderOptSql sqlOpt1) e sqlOpt1 evs2 learned1 hlink
  unfold pqRecover
  split
  · -- "no such table"
    cases findNoSuchTableGo (pyLower e).data.length (pyLower e).data with
    | some mt =>
      simp only []
      cases mapTableAlias learned1 (String.mk mt) (getAvailableTables raw) with
      | some target => exact hretry2 _ _
      | none => exact ⟨hgenFz2, hgenFz.2.1, hgenFz.2.2⟩
    | none =>
      refine ⟨?_, Or.inr ⟨_, rfl, rfl, rfl, rfl⟩, ?_⟩
      · simp [pqFail, countExec]
      · intro e0 s _ hs
        exact hlink s hs
  · split
    · -- "no such column"
      cases tryFixMissingColumn raw (renderOptSql sqlOpt1) e with
      | some f =>
        simp only []
        by_cases hf : (f != "") = true
        · rw [if_pos hf]
          have h := pqRetryValidated_spec raw oc userInput querySource f evs2 learned1
          exact ⟨le_of_eq h.1, h.2.1, h.2.2⟩
        · rw [if_neg hf]
          exact ⟨hgen.1, hgen.2.1, hgen.2.2⟩
      | none => exact ⟨hgen.1, hgen.2.1, hgen.2.2⟩
    · split
      · -- "only execute one statement"
        exact hretry1 _ _
      · -- any other error
        exact ⟨hgen.1, hgen.2.1, hgen.2.2⟩

/-- The pre-execution stages record no execution events. -/
theorem pqGenPath_ok_events (raw : RawEngine) (oc : LLMOracle)
    (userInput : String) (hist : List ChatMsg) (a : Option String)
    (b : String) (evs0 : List AgentEv)
    (h : pqGenPath raw oc userInput hist = .ok (a, b, evs0)) :
    evs0 = [AgentEv.genCall] := by
  unfold pqGenPath at h
  cases hg : generateSqlQuery raw oc userInput hist with
  | ok s =>
    rw [hg] at h
    cases h
    rfl
  | error e =>
    rw [hg] at h
    cases h

theorem pqStage1_ok_events (raw : RawEngine) (oc : LLMOracle)
    (today : Int × Nat) (userInput : String) (hist : List ChatMsg)
    (a : Option String) (b : String) (evs0 : List AgentEv)
    (h : pqStage1 raw oc today userInput hist = .ok (a, b, evs0)) :
    countExec evs0 = 0 := by
  unfold pqStage1 at h
  split at h
  · cases h
    rfl
  · split at h
    · split at h
      · cases h
        rfl
      · rw [pqGenPath_ok_events raw oc userInput hist a b evs0 h]
        rfl
    · rw [pqGenPath_ok_events raw oc userInput hist a b evs0 h]
      rfl

theorem pqExecute_spec (raw : RawEngine) (oc : LLMOracle)
    (userInput querySource : String) (sqlOpt1 : Option String)
    (learned1 : List (String × String)) (evsPre : List AgentEv) :
    countExec (pqExecute raw oc userInput querySource sqlOpt1 learned1 evsPre).events ≤
      countExec evsPre + 2 ∧
    failShape (pqExecute raw oc userInput querySource sqlOpt1 learned1 evsPre).result ∧
    lastSqlLink (pqExecute raw oc userInput querySource sqlOpt1 learned1 evsPre) := by
  have hlink : ∀ s, sqlOpt1 = some s →
      lastExecSql (evsPre ++ [AgentEv.execQ (renderOptSql sqlOpt1)]) = some s := by
    intro s hs
    rw [hs]
    exact lastExecSql_append_exec _ _
  unfold pqExecute
  cases execOpt raw sqlOpt1 with
  | ok p =>
    refine ⟨?_, Or.inl rfl, ?_⟩
    · show countExec (evsPre ++ [AgentEv.execQ (renderOptSql sqlOpt1)]) ≤
        countExec evsPre + 2
      rw [countExec_append, countExec_exec1]
      omega
    · intro e s he
      exact absurd he (by simp [pqFinish, pqSuccess])
  | error e =>
    have h := pqRecover_spec raw oc userInput querySource sqlOpt1 learned1
      (evsPre ++ [AgentEv.execQ (renderOptSql sqlOpt1)]) e hlink
    refine ⟨?_, h.2.1, h.2.2⟩
    calc _ ≤ countExec (evsPre ++ [AgentEv.execQ (renderOptSql sqlOpt1)]) + 1 := h.1
    _ = countExec evsPre + 2 := by rw [countExec_append, countExec_exec1]

/-- C6: for every input, oracle behaviour, chat history and alias state,
`process_query` executes the candidate SQL at most twice — the initial
execution plus at most one retry (after a substitution or a generative
correction); when the retry fails no further attempt is made (which the
C7 contract describes), so every run performs a bounded number of query
executions. -/
theorem c6_repair_loop_bounded (raw : RawEngine) (oc : LLMOracle)
    (today : Int × Nat) (learned0 : List (String × String))
    (userInput : String) (hist : List ChatMsg) :
    countExec (processQuery raw oc today learned0 userInput hist).events ≤ 2 := by
  unfold processQuery
  cases hs : pqStage1 raw oc today userInput hist with
  | error p =>
    cases p with
    | mk e evs =>
      show countExec evs ≤ 2
      unfold pqStage1 at hs
      split at hs
      · cases hs
      · split at hs
        · split at hs
          · cases hs
          · unfold pqGenPath at hs
            split at hs
            · cases hs
              decide
            · cases hs
        · unfold pqGenPath at hs
          split at hs
          · cases hs
            decide
          · cases hs
  | ok t =>
    obtain ⟨a, b, evs0⟩ := t
    have h0 : countExec evs0 = 0 :=
      pqStage1_ok_events raw oc today userInput hist a b evs0 hs
    cases a with
    | none =>
      show countExec (pqExecute raw oc userInput b none learned0 evs0).events ≤ 2
      have h := (pqExecute_spec raw oc userInput b none learned0 evs0).1
      omega
    | some s0 =>
      show countExec (pqExecute raw oc userInput b
        (some (validateAndAutocorrectSql raw learned0 s0).sql)
        (validateAndAutocorrectSql raw learned0 s0).learned
        (evs0 ++ (if (validateAndAutocorrectSql raw learned0 s0).fuzzyUsed then
          [AgentEv.fuzzyLookup] else []))).events ≤ 2
      have h := (pqExecute_spec raw oc userInput b
        (some (validateAndAutocorrectSql raw learned0 s0).sql)
        (validateAndAutocorrectSql raw learned0 s0).learned
        (evs0 ++ (if (validateAndAutocorrectSql raw learned0 s0).fuzzyUsed then
          [AgentEv.fuzzyLookup] else []))).1
      rw [countExec_append, countExec_fuzzyOpt] at h
      omega

/-- C7: `process_query` never lets an exception escape: it always returns
a result mapping, and on total failure that mapping carries the polite
error message as the response, the error in the metadata, and empty
results and columns lists, with any non-null `sql_query` being exactly the
last SQL whose execution was attempted. -/
theorem c7_structured_failure (raw : RawEngine) (oc : LLMOracle)
    (today : Int × Nat) (learned0 : List (String × String))
    (userInput : String) (hist : List ChatMsg) :
    failShape (processQuery raw oc today learned0 userInput hist).result ∧
    lastSqlLink (processQuery raw oc today learned0 userInput hist) := by
  unfold processQuery
  cases hs : pqStage1 raw oc today userInput hist with
  | error p =>
    cases p with
    | mk e evs =>
      refine ⟨Or.inr ⟨e, rfl, rfl, rfl, rfl⟩, ?_⟩
      intro e0 s _ habs
      exact absurd habs (by simp [pqFailure])
  | ok t =>
    obtain ⟨a, b, evs0⟩ := t
    cases a with
    | none =>
      have h := pqExecute_spec raw oc userInput b none learned0 evs0
      exact ⟨h.2.1, h.2.2⟩
    | some s0 =>
      have h := pqExecute_spec raw oc userInput b
        (some (validateAndAutocorrectSql raw learned0 s0).sql)
        (validateAndAutocorrectSql raw learned0 s0).learned
        (evs0 ++ (if (validateAndAutocorrectSql raw learned0 s0).fuzzyUsed then
          [AgentEv.fuzzyLookup] else []))
      exact ⟨h.2.1, h.2.2⟩

/-! ### C9: learned aliases run first -/

theorem applyLearnedAliases_on_empty (learned : List (String × String))
    (avail : List String) : applyLearnedAliases learned avail "" = "" := by
  unfold applyLearnedAliases
  induction learned with
  | nil => rfl
  | cons p rest ih =>
    simp only [List.foldl]
    have hstep :
        (if avail.contains p.2 && p.1 != "" then replaceIdent p.1 p.2 "" else "") =
          "" := by
      split <;> rfl
    rw [hstep]
    exact ih

theorem applyPreferredPatterns_on_empty (avail : List String) :
    applyPreferredPatterns avail "" = "" := by
  unfold applyPreferredPatterns
  have haux : ∀ (pats : List (List String × String)),
      pats.foldl
        (fun acc p => if avail.contains p.2 then replaceAlts p.1 p.2 acc else acc)
        "" = "" := by
    intro pats
    induction pats with
    | nil => rfl
    | cons p rest ih =>
      simp only [List.foldl]
      have hstep :
          (if avail.contains p.2 then replaceAlts p.1 p.2 "" else "") = "" := by
        split <;> rfl
      rw [hstep]
      exact ih
  exact haux preferredPatterns

/-- The engine of the alias-learning scenario: the introspection fragment
is served from the seeded schema and the corrected query returns a row;
everything else (in particular the original wrong query) fails. -/
def c9Engine : RawEngine :=
  sqliteModelWith
    (fun q =>
      if q == "SELECT amount FROM dw_fact_billing" then
        .ok ([[("amount", SQLVal.intV 125000)]], ["amount"])
      else .error ("no such table: " ++ q))
    demoSchema

/-- The generative collaborator of the scenario: available, and its only
completion is the SQL that still uses the learned-wrong table name. -/
def c9Chat : LLMOracle := ⟨true, fun _ => .ok "SELECT amount FROM tbl_sales_x"⟩

/-- C9: the learned Alias Map is applied before any synonym or fuzzy
heuristic — `_normalize_table_names` is exactly the learned-alias pass
followed by the synonym battery and the `oltp_fact_*` rewrite, and the
learned pass rewrites every whole-word occurrence (case-insensitively) of
a learned wrong name whose target exists.  Consequently, re-submitting
SQL containing the learned wrong name is corrected during the first
normalization pass and the run involves no fuzzy table lookup and no
generative-correction call: the scenario executes exactly the corrected
SQL once and succeeds. -/
theorem c9_learned_aliases_first :
    (∀ (learned : List (String × String)) (avail : List String) (sql : String),
      normalizeTableNames learned avail sql =
        oltpFactToDw avail
          (applyPreferredPatterns avail (applyLearnedAliases learned avail sql))) ∧
    applyLearnedAliases [("tbl_sales_x", "dw_fact_billing")]
        (sortedNames demoSchema) "SELECT a FROM tbl_sales_x JOIN TBL_SALES_X t" =
      "SELECT a FROM dw_fact_billing JOIN dw_fact_billing t" ∧
    validateAndAutocorrectSql c9Engine [("tbl_sales_x", "dw_fact_billing")]
        "SELECT amount FROM tbl_sales_x" =
      ⟨"SELECT amount FROM dw_fact_billing", false,
        [("tbl_sales_x", "dw_fact_billing")]⟩ ∧
    (processQuery c9Engine c9Chat (2026, 8)
        [("tbl_sales_x", "dw_fact_billing")] "mostre tbl_sales_x" []).events =
      [AgentEv.genCall, AgentEv.execQ "SELECT amount FROM dw_fact_billing"] ∧
    (processQuery c9Engine c9Chat (2026, 8)
        [("tbl_sales_x", "dw_fact_billing")] "mostre tbl_sales_x"
        []).result.sqlQuery = some "SELECT amount FROM dw_fact_billing" ∧
    (processQuery c9Engine c9Chat (2026, 8)
        [("tbl_sales_x", "dw_fact_billing")] "mostre tbl_sales_x"
        []).result.errorMeta = none ∧
    (processQuery c9Engine c9Chat (2026, 8)
        [("tbl_sales_x", "dw_fact_billing")] "mostre tbl_sales_x"
        []).learned = [("tbl_sales_x", "dw_fact_billing")] := by
  refine ⟨?_, by decide, by decide, by decide, by decide, by decide, by decide⟩
  intro learned avail sql
  by_cases h : sql = ""
  · subst h
    rw [applyLearnedAliases_on_empty, applyPreferredPatterns_on_empty]
    rfl
  · unfold normalizeTableNames
    rw [if_neg (by simpa using h)]

end AnalyticalCompany
